import Mathlib

/-!
Formal model of `src/controller/admin/BlogController.js`.

Each exported request handler of the controller is embedded as a Lean
function over an explicit trace of collaborator calls.  The collaborators
(the Joi validation service, the generic `dbService` document-store layer,
the `Blog` mongoose model constructor, and `ObjectId.isValid`) live outside
this file's repository slice and are modelled as oracles: a `Collab`
structure of functions the handler may call, each of which either returns a
value or throws a JS error.  Request bodies are JSON objects delivered by
the framework's JSON body parser, so a body is a field list; `req.params.id`
and `req.user.id` are arbitrary JS values.
-/

/-- A JavaScript runtime value, as far as the controller inspects one:
`undefined`, `null`, booleans, numbers (the controller only ever compares
with the integer 11000 and reads integer lengths), strings, arrays and
plain objects (ordered field lists, as JS object literals are). -/
inductive Val : Type where
  | undefined : Val
  | null : Val
  | bool : Bool → Val
  | num : Int → Val
  | str : String → Val
  | arr : List Val → Val
  | obj : List (String × Val) → Val

/-- JS truthiness: `undefined`, `null`, `false`, `0` and `""` are falsy,
everything else (including every array and object) is truthy. -/
def Val.truthy : Val → Bool
  | .undefined => false
  | .null => false
  | .bool b => b
  | .num n => n != 0
  | .str s => s != ""
  | .arr _ => true
  | .obj _ => true

/-- JS `typeof`: note `typeof null = "object"` and arrays are objects. -/
def Val.typeofVal : Val → String
  | .undefined => "undefined"
  | .null => "object"
  | .bool _ => "boolean"
  | .num _ => "number"
  | .str _ => "string"
  | .arr _ => "object"
  | .obj _ => "object"

/-- `typeof v === 'object' && v !== null`, the controller's guard before
spreading `req.body.query`, `req.body.options` and `req.body.data`. -/
def Val.isNonNullObject (v : Val) : Bool :=
  v.typeofVal == "object" && !(match v with | .null => true | _ => false)

/-- `Array.isArray`. -/
def Val.isArray : Val → Bool
  | .arr _ => true
  | _ => false

/-- First-match lookup in a field list (JS objects have unique keys, under
which first-match and last-match coincide). -/
def lookupField (fields : List (String × Val)) (k : String) : Option Val :=
  match fields with
  | [] => none
  | (k2, v) :: rest => if k2 == k then some v else lookupField rest k

/-- JS property read `v[k]` at the places the controller performs one:
field of an object, `length` of an array or string; anything else the
controller only reads behind a truthiness guard, yielding `undefined`. -/
def Val.getField : Val → String → Val
  | .obj fields, k => (lookupField fields k).getD .undefined
  | .arr xs, k => if k == "length" then .num xs.length else .undefined
  | .str s, k => if k == "length" then .num s.length else .undefined
  | _, _ => .undefined

/-- The own enumerable fields `{...v}` copies: an object's fields, an
array's or string's index-keyed elements, nothing for primitives. -/
def Val.spreadFields : Val → List (String × Val)
  | .obj fields => fields
  | .arr xs => xs.enum.map (fun p => (toString p.1, p.2))
  | .str s => s.toList.enum.map (fun p => (toString p.1, Val.str p.2.toString))
  | _ => []

/-- Writing field `k` in an object literal: overwrite in place when the key
is already present, append otherwise (JS key order). -/
def setField (fields : List (String × Val)) (k : String) (v : Val) :
    List (String × Val) :=
  match fields with
  | [] => [(k, v)]
  | (k2, w) :: rest =>
    if k2 == k then (k2, v) :: rest else (k2, w) :: setField rest k v

/-- JS `delete o[k]`. -/
def eraseField (fields : List (String × Val)) (k : String) :
    List (String × Val) :=
  fields.filter (fun p => p.1 != k)

/-- Whether a field list carries key `k` at all. -/
def hasField (fields : List (String × Val)) (k : String) : Bool :=
  fields.any (fun p => p.1 == k)

/-- A thrown JS error, as far as the catch blocks inspect one:
`error.name`, `error.code` (an arbitrary value: mongo duplicate-key errors
carry the number 11000) and `error.message`. -/
structure Err : Type where
  name : String
  code : Val
  message : String

/-- `error.code && error.code === 11000`. -/
def Err.isDup (e : Err) : Bool :=
  e.code.truthy && (match e.code with | .num n => n == 11000 | _ => false)

/-- What `validation.validateParamsWithJoi` / `validateFilterWithJoi`
return: a flag and a message. -/
structure ValidateResult : Type where
  isValid : Bool
  message : String

/-- A call to one of the response helpers installed on `res`, with the
payload the controller passes (`success` carries the value of the `data`
key of its argument object). -/
inductive Response : Type where
  | success : Val → Response
  | validationError : String → Response
  | recordNotFound : Response
  | badRequest : Response
  | internalServerError : String → Response

/-- One call from the controller into the model constructor or the
document-store layer, with the arguments the controller passed (the `Blog`
model argument, constant at every call site, is omitted). -/
inductive ExtCall : Type where
  | newBlog : Val → ExtCall
  | createDocument : Val → ExtCall
  | countDocument : Val → ExtCall
  | getAllDocuments : Val → Val → ExtCall
  | bulkUpdate : Val → Val → ExtCall
  | bulkInsert : Val → ExtCall
  | deleteMany : Val → ExtCall
  | findOneAndUpdateDocument : Val → Val → ExtCall
  | getSingleDocument : Val → Val → ExtCall
  | findOneAndDeleteDocument : Val → ExtCall

/-- Whether an external call removes documents from the collection. -/
def ExtCall.isDeleteOp : ExtCall → Bool
  | .deleteMany _ => true
  | .findOneAndDeleteDocument _ => true
  | _ => false

/-- Whether an external call hits the document store at all (everything but
the model constructor). -/
def ExtCall.isStoreOp : ExtCall → Bool
  | .newBlog _ => false
  | _ => true

/-- What one handler invocation did: the external calls it made and the
response-helper calls it issued, each in order. -/
structure Trace : Type where
  ops : List ExtCall
  rsps : List Response

def Trace.empty : Trace := ⟨[], []⟩

/-- Outcome of a statement block: fall through with a value, `return`
early, or propagate a thrown error. -/
inductive Outcome (α : Type) : Type where
  | ok : α → Outcome α
  | ret : Outcome α
  | thrown : Err → Outcome α

/-- The handler-body monad: trace accumulation with early return and
exceptions. -/
def M (α : Type) : Type := Trace → Trace × Outcome α

instance monadM : Monad M where
  pure a := fun t => (t, .ok a)
  bind x f := fun t =>
    match x t with
    | (t2, .ok a) => f a t2
    | (t2, .ret) => (t2, .ret)
    | (t2, .thrown e) => (t2, .thrown e)


/-- Invoke a response helper without returning (as the unreturned
`res.badRequest()` in `partialUpdateBlog` does). -/
def emit (r : Response) : M Unit :=
  fun t => ({ t with rsps := t.rsps ++ [r] }, .ok ())

/-- `return res.X(...)`: record the response and leave the function. -/
def retResp (r : Response) : M Unit :=
  fun t => ({ t with rsps := t.rsps ++ [r] }, .ret)

/-- An awaited call into the constructor or store layer: the call is
recorded, then its result either yields a value or throws. -/
def call (op : ExtCall) (r : Except Err Val) : M Val :=
  fun t =>
    let t2 := { t with ops := t.ops ++ [op] }
    match r with
    | .ok v => (t2, .ok v)
    | .error e => (t2, .thrown e)

/-- A call into the validation service (not a store operation, so not
recorded as one): returns its result or throws. -/
def callV (r : Except Err ValidateResult) : M ValidateResult :=
  fun t =>
    match r with
    | .ok v => (t, .ok v)
    | .error e => (t, .thrown e)

/-- `try { body } catch (error) { hnd }`. -/
def tryCatch (body : M Unit) (hnd : Err → M Unit) : M Unit :=
  fun t =>
    match body t with
    | (t2, .thrown e) => hnd e t2
    | (t2, _) => (t2, .ok ())

/-- Run a handler from an empty trace and keep what it did. -/
def runM (m : M Unit) : Trace := (m Trace.empty).1

/-- Whether a handler computation finishes without propagating an error to
its caller. -/
def noThrow (m : M Unit) : Prop :=
  ∀ t, ∀ e : Err, (m t).2 ≠ .thrown e

/-- An incoming request, as far as the controller reads it: the parsed JSON
body (an object: the JSON body-parser middleware always hands the handler
an object), the `id` path parameter (`undefined` when the route matched
without one) and the authenticated user's id. -/
structure Req : Type where
  body : List (String × Val)
  paramsId : Val
  userId : Val

/-- The collaborators a handler calls, as oracles.  The three
`validate...` fields stand for `validateParamsWithJoi` against
`BlogSchemaKey.schemaKeys` resp. `BlogSchemaKey.updateSchemaKeys`, and
`validateFilterWithJoi` against `BlogSchemaKey.findFilterKeys` (with the
model schema object in `findAllBlog`, without it in `getBlogCount`); the
`db...` fields are the `dbService` operations; `newBlog` is the `Blog`
model constructor; `isValidObjectId` is `ObjectId.isValid`. -/
structure Collab : Type where
  validateSchemaKeys : Val → Except Err ValidateResult
  validateUpdateSchemaKeys : Val → Except Err ValidateResult
  validateFindFilterKeys : Val → Except Err ValidateResult
  validateFindFilterKeysNoModel : Val → Except Err ValidateResult
  dbCreateDocument : Val → Except Err Val
  dbCountDocument : Val → Except Err Val
  dbGetAllDocuments : Val → Val → Except Err Val
  dbBulkUpdate : Val → Val → Except Err Val
  dbBulkInsert : Val → Except Err Val
  dbDeleteMany : Val → Except Err Val
  dbFindOneAndUpdateDocument : Val → Val → Except Err Val
  dbGetSingleDocument : Val → Val → Except Err Val
  dbFindOneAndDeleteDocument : Val → Except Err Val
  newBlog : Val → Except Err Val
  isValidObjectId : Val → Bool

/-- The catch block shared verbatim by `addBlog`, `bulkInsertBlog` and
`updateBlog`: `ValidationError` and duplicate-key errors become
validation-error responses, everything else an internal server error. -/
def catchDistinguish (e : Err) : M Unit :=
  if e.name == "ValidationError" then
    retResp (.validationError ("Invalid Data, Validation Failed at " ++ e.message))
  else if e.isDup then
    retResp (.validationError "Data duplication found.")
  else
    retResp (.internalServerError e.message)

/-- The catch block of the nine remaining handlers: every thrown error
becomes an internal server error carrying the error's message. -/
def catchGeneric (e : Err) : M Unit :=
  retResp (.internalServerError e.message)

/-- `res.success({ data : x })`. -/
def successData (x : Val) : Response := .success x

/-- JS `<` between a value and an integer: true only when the value is a
number below the bound (comparisons against `NaN` are false). -/
def numLt (v : Val) (m : Int) : Bool :=
  match v with
  | .num n => n < m
  | _ => false

/-- The guard of `softDeleteManyBlog` and `deleteManyBlog`:
`!ids || !Array.isArray(ids) || ids.length < 1`. -/
def idsBad (ids : Val) : Bool :=
  !ids.truthy || !ids.isArray || numLt (ids.getField "length") 1

/-- The data guard of `bulkInsertBlog`:
`!Array.isArray(req.body.data) || req.body.data.length < 1`. -/
def dataBad (data : Val) : Bool :=
  !data.isArray || numLt (data.getField "length") 1

/-- The update body both soft-delete handlers build:
`{ isDeleted: true, updatedBy: req.user.id }`. -/
def softDeleteBody (req : Req) : List (String × Val) :=
  [("isDeleted", .bool true), ("updatedBy", req.userId)]

/-- The payload `updateBlog` builds: `{ ...req.body, updatedBy: req.user.id }`
(no `addedBy` stripping happens in `updateBlog`). -/
def updateBlogData (req : Req) : List (String × Val) :=
  setField req.body "updatedBy" req.userId

/-- The payload `partialUpdateBlog` builds: `delete req.body['addedBy']`,
then `{ ...req.body, updatedBy: req.user.id }`. -/
def partialUpdateBlogData (req : Req) : List (String × Val) :=
  setField (eraseField req.body "addedBy") "updatedBy" req.userId

/-- The payload `bulkUpdateBlog` builds: `{ ...req.body.data }`, then
`delete dataToUpdate['addedBy']`, then — only when `req.body.data` is a
non-null object — `{ ...dataToUpdate, updatedBy: req.user.id }`. -/
def bulkUpdateBlogData (req : Req) : List (String × Val) :=
  let d := eraseField ((Val.obj req.body).getField "data").spreadFields "addedBy"
  if ((Val.obj req.body).getField "data").isNonNullObject then
    setField d "updatedBy" req.userId
  else d

/-- The single-id query `{ _id: req.params.id }` built by `softDeleteBlog`,
`partialUpdateBlog`, `updateBlog`, `getBlog` and `deleteBlog`. -/
def idQuery (req : Req) : Val := Val.obj [("_id", req.paramsId)]

/-- The id-list query `{ _id: { $in: ids } }` built by `softDeleteManyBlog`
and `deleteManyBlog`. -/
def idsQuery (req : Req) : Val :=
  Val.obj [("_id", Val.obj [("$in", (Val.obj req.body).getField "ids")])]

/-- The value `addBlog` hands to the `Blog` constructor: `{...req.body}`
with `addedBy` overwritten by the authenticated user id. -/
def addBlogCtorArg (req : Req) : Val :=
  Val.obj (setField req.body "addedBy" req.userId)

/-- The items `bulkInsertBlog` sends to the store: each element of
`req.body.data` copied with `addedBy` set to the user id. -/
def bulkInsertItems (req : Req) : List Val :=
  (match (Val.obj req.body).getField "data" with
    | .arr xs => xs
    | _ => []).map
    (fun item => Val.obj (setField (Val.spreadFields item) "addedBy" req.userId))

/-- The array `bulkInsertBlog` passes to `dbService.bulkInsert`. -/
def bulkInsertPayload (req : Req) : Val := Val.arr (bulkInsertItems req)

/-- The filter `bulkUpdateBlog` builds:
`req.body && req.body.filter ? { ...req.body.filter } : {}`. -/
def bulkUpdateFilter (req : Req) : Val :=
  if ((Val.obj req.body).getField "filter").truthy then
    Val.obj ((Val.obj req.body).getField "filter").spreadFields
  else Val.obj []

/-- The `where` filter `getBlogCount` builds from `req.body.where`. -/
def getBlogCountWhere (req : Req) : Val :=
  if ((Val.obj req.body).getField "where").isNonNullObject then
    Val.obj ((Val.obj req.body).getField "where").spreadFields
  else Val.obj []

/-- The body of `addBlog`'s try block (lines 19-31): validate
`{...req.body}` against the create schema, overwrite `addedBy` with the
user id, wrap in the model constructor, create the document. -/
def addBlogTry (c : Collab) (req : Req) : M Unit := do
  let dataToCreate := Val.obj req.body
  let validateRequest ← callV (c.validateSchemaKeys dataToCreate)
  if !validateRequest.isValid then
    retResp (.validationError
      ("Invalid values in parameters, " ++ validateRequest.message))
  let dataToCreate := addBlogCtorArg req
  let doc ← call (.newBlog dataToCreate) (c.newBlog dataToCreate)
  let createdBlog ← call (.createDocument doc) (c.dbCreateDocument doc)
  retResp (successData createdBlog)

/-- `addBlog` (lines 19-41). -/
def addBlogM (c : Collab) (req : Req) : M Unit :=
  tryCatch (addBlogTry c req) catchDistinguish

/-- The `query` `findAllBlog` builds from `req.body.query` (lines 61-63). -/
def findAllQuery (req : Req) : Val :=
  if ((Val.obj req.body).getField "query").isNonNullObject then
    Val.obj ((Val.obj req.body).getField "query").spreadFields
  else Val.obj []

/-- The `options` `findAllBlog` builds from `req.body.options`
(lines 68-70; the `req.body &&` conjunct always holds for a parsed body). -/
def findAllOptions (req : Req) : Val :=
  if ((Val.obj req.body).getField "options").isNonNullObject then
    Val.obj ((Val.obj req.body).getField "options").spreadFields
  else Val.obj []

/-- The emptiness test of findAllBlog (line 72):
`!foundBlogs || !foundBlogs.data || !foundBlogs.data.length`. -/
def foundBlogsEmpty (foundBlogs : Val) : Bool :=
  !foundBlogs.truthy || !(foundBlogs.getField "data").truthy ||
    !((foundBlogs.getField "data").getField "length").truthy

/-- The body of `findAllBlog`'s try block (lines 49-75). -/
def findAllBlogTry (c : Collab) (req : Req) : M Unit := do
  let body := Val.obj req.body
  let validateRequest ← callV (c.validateFindFilterKeys body)
  if !validateRequest.isValid then
    retResp (.validationError validateRequest.message)
  let query := findAllQuery req
  if (body.getField "isCountOnly").truthy then do
    let totalRecords ← call (.countDocument query) (c.dbCountDocument query)
    retResp (successData (Val.obj [("totalRecords", totalRecords)]))
  let options := findAllOptions req
  let foundBlogs ←
    call (.getAllDocuments query options) (c.dbGetAllDocuments query options)
  if foundBlogsEmpty foundBlogs then
    retResp .recordNotFound
  retResp (successData foundBlogs)

/-- `findAllBlog` (lines 49-79). -/
def findAllBlogM (c : Collab) (req : Req) : M Unit :=
  tryCatch (findAllBlogTry c req) catchGeneric

/-- The body of `getBlogCount`'s try block (lines 87-102). -/
def getBlogCountTry (c : Collab) (req : Req) : M Unit := do
  let body := Val.obj req.body
  let validateRequest ← callV (c.validateFindFilterKeysNoModel body)
  if !validateRequest.isValid then
    retResp (.validationError validateRequest.message)
  let whereQ := getBlogCountWhere req
  let countedBlog ← call (.countDocument whereQ) (c.dbCountDocument whereQ)
  retResp (successData (Val.obj [("totalRecords", countedBlog)]))

/-- `getBlogCount` (lines 87-106). -/
def getBlogCountM (c : Collab) (req : Req) : M Unit :=
  tryCatch (getBlogCountTry c req) catchGeneric

/-- The body of `softDeleteManyBlog`'s try block (lines 114-130). -/
def softDeleteManyBlogTry (c : Collab) (req : Req) : M Unit := do
  let ids := (Val.obj req.body).getField "ids"
  if idsBad ids then
    retResp .badRequest
  let query := idsQuery req
  let updateBody := Val.obj (softDeleteBody req)
  let updatedBlog ←
    call (.bulkUpdate query updateBody) (c.dbBulkUpdate query updateBody)
  if !updatedBlog.truthy then
    retResp .recordNotFound
  retResp (successData updatedBlog)

/-- `softDeleteManyBlog` (lines 114-134). -/
def softDeleteManyBlogM (c : Collab) (req : Req) : M Unit :=
  tryCatch (softDeleteManyBlogTry c req) catchGeneric

/-- The body of `bulkInsertBlog`'s try block (lines 142-155): the guard is
`req.body && (!Array.isArray(req.body.data) || req.body.data.length < 1)`;
a parsed body is always truthy, so the guard reduces to its second
conjunct.  On the good path each item is copied with `addedBy` set to the
user id. -/
def bulkInsertBlogTry (c : Collab) (req : Req) : M Unit := do
  let data := (Val.obj req.body).getField "data"
  if dataBad data then
    retResp .badRequest
  let dataToCreate := bulkInsertPayload req
  let createdBlogs ← call (.bulkInsert dataToCreate) (c.dbBulkInsert dataToCreate)
  retResp (successData createdBlogs)

/-- `bulkInsertBlog` (lines 142-165). -/
def bulkInsertBlogM (c : Collab) (req : Req) : M Unit :=
  tryCatch (bulkInsertBlogTry c req) catchDistinguish

/-- The body of `bulkUpdateBlog`'s try block (lines 173-188). -/
def bulkUpdateBlogTry (c : Collab) (req : Req) : M Unit := do
  let filter := bulkUpdateFilter req
  let dataToUpdate := Val.obj (bulkUpdateBlogData req)
  let result ←
    call (.bulkUpdate filter dataToUpdate) (c.dbBulkUpdate filter dataToUpdate)
  if !result.truthy then
    retResp .recordNotFound
  retResp (successData result)

/-- `bulkUpdateBlog` (lines 173-192). -/
def bulkUpdateBlogM (c : Collab) (req : Req) : M Unit :=
  tryCatch (bulkUpdateBlogTry c req) catchGeneric

/-- The body of `deleteManyBlog`'s try block (lines 200-211). -/
def deleteManyBlogTry (c : Collab) (req : Req) : M Unit := do
  let ids := (Val.obj req.body).getField "ids"
  if idsBad ids then
    retResp .badRequest
  let query := idsQuery req
  let deletedBlog ← call (.deleteMany query) (c.dbDeleteMany query)
  if !deletedBlog.truthy then
    retResp .recordNotFound
  retResp (successData deletedBlog)

/-- `deleteManyBlog` (lines 200-215). -/
def deleteManyBlogM (c : Collab) (req : Req) : M Unit :=
  tryCatch (deleteManyBlogTry c req) catchGeneric

/-- The body of `softDeleteBlog`'s try block (lines 222-236). -/
def softDeleteBlogTry (c : Collab) (req : Req) : M Unit := do
  if !req.paramsId.truthy then
    retResp .badRequest
  let query := idQuery req
  let updateBody := Val.obj (softDeleteBody req)
  let updatedBlog ← call (.findOneAndUpdateDocument query updateBody)
    (c.dbFindOneAndUpdateDocument query updateBody)
  if !updatedBlog.truthy then
    retResp .recordNotFound
  retResp (successData updatedBlog)

/-- `softDeleteBlog` (lines 222-240). -/
def softDeleteBlogM (c : Collab) (req : Req) : M Unit :=
  tryCatch (softDeleteBlogTry c req) catchGeneric

/-- The body of `partialUpdateBlog`'s try block (lines 248-270): note the
missing `return` on `res.badRequest()` — on a falsy path id the handler
responds bad-request and then keeps going. -/
def partialUpdateBlogTry (c : Collab) (req : Req) : M Unit := do
  if !req.paramsId.truthy then
    emit .badRequest
  let dataToUpdate := Val.obj (partialUpdateBlogData req)
  let validateRequest ← callV (c.validateUpdateSchemaKeys dataToUpdate)
  if !validateRequest.isValid then
    retResp (.validationError
      ("Invalid values in parameters, " ++ validateRequest.message))
  let query := idQuery req
  let updatedBlog ← call (.findOneAndUpdateDocument query dataToUpdate)
    (c.dbFindOneAndUpdateDocument query dataToUpdate)
  if !updatedBlog.truthy then
    retResp .recordNotFound
  retResp (successData updatedBlog)

/-- `partialUpdateBlog` (lines 248-274). -/
def partialUpdateBlogM (c : Collab) (req : Req) : M Unit :=
  tryCatch (partialUpdateBlogTry c req) catchGeneric

/-- The body of `updateBlog`'s try block (lines 282-300): no guard on
`req.params.id`, and no `addedBy` stripping — the body is spread as-is
with `updatedBy` added. -/
def updateBlogTry (c : Collab) (req : Req) : M Unit := do
  let dataToUpdate := Val.obj (updateBlogData req)
  let validateRequest ← callV (c.validateUpdateSchemaKeys dataToUpdate)
  if !validateRequest.isValid then
    retResp (.validationError
      ("Invalid values in parameters, " ++ validateRequest.message))
  let query := idQuery req
  let updatedBlog ← call (.findOneAndUpdateDocument query dataToUpdate)
    (c.dbFindOneAndUpdateDocument query dataToUpdate)
  if !updatedBlog.truthy then
    retResp .recordNotFound
  retResp (successData updatedBlog)

/-- `updateBlog` (lines 282-310). -/
def updateBlogM (c : Collab) (req : Req) : M Unit :=
  tryCatch (updateBlogTry c req) catchDistinguish

/-- The body of `getBlog`'s try block (lines 318-330). -/
def getBlogTry (c : Collab) (req : Req) : M Unit := do
  if !(c.isValidObjectId req.paramsId) then
    retResp (.validationError "invalid objectId.")
  let query := idQuery req
  let options := Val.obj []
  let foundBlog ← call (.getSingleDocument query options)
    (c.dbGetSingleDocument query options)
  if !foundBlog.truthy then
    retResp .recordNotFound
  retResp (successData foundBlog)

/-- `getBlog` (lines 318-335). -/
def getBlogM (c : Collab) (req : Req) : M Unit :=
  tryCatch (getBlogTry c req) catchGeneric

/-- The body of `deleteBlog`'s try block (lines 343-354). -/
def deleteBlogTry (c : Collab) (req : Req) : M Unit := do
  if !req.paramsId.truthy then
    retResp .badRequest
  let query := idQuery req
  let deletedBlog ← call (.findOneAndDeleteDocument query)
    (c.dbFindOneAndDeleteDocument query)
  if !deletedBlog.truthy then
    retResp .recordNotFound
  retResp (successData deletedBlog)

/-- `deleteBlog` (lines 343-359). -/
def deleteBlogM (c : Collab) (req : Req) : M Unit :=
  tryCatch (deleteBlogTry c req) catchGeneric

/-- What one `addBlog` request does. -/
def addBlog (c : Collab) (req : Req) : Trace := runM (addBlogM c req)

/-- What one `findAllBlog` request does. -/
def findAllBlog (c : Collab) (req : Req) : Trace := runM (findAllBlogM c req)

/-- What one `getBlogCount` request does. -/
def getBlogCount (c : Collab) (req : Req) : Trace := runM (getBlogCountM c req)

/-- What one `softDeleteManyBlog` request does. -/
def softDeleteManyBlog (c : Collab) (req : Req) : Trace :=
  runM (softDeleteManyBlogM c req)

/-- What one `bulkInsertBlog` request does. -/
def bulkInsertBlog (c : Collab) (req : Req) : Trace :=
  runM (bulkInsertBlogM c req)

/-- What one `bulkUpdateBlog` request does. -/
def bulkUpdateBlog (c : Collab) (req : Req) : Trace :=
  runM (bulkUpdateBlogM c req)

/-- What one `deleteManyBlog` request does. -/
def deleteManyBlog (c : Collab) (req : Req) : Trace :=
  runM (deleteManyBlogM c req)

/-- What one `softDeleteBlog` request does. -/
def softDeleteBlog (c : Collab) (req : Req) : Trace :=
  runM (softDeleteBlogM c req)

/-- What one `partialUpdateBlog` request does. -/
def partialUpdateBlog (c : Collab) (req : Req) : Trace :=
  runM (partialUpdateBlogM c req)

/-- What one `updateBlog` request does. -/
def updateBlog (c : Collab) (req : Req) : Trace := runM (updateBlogM c req)

/-- What one `getBlog` request does. -/
def getBlog (c : Collab) (req : Req) : Trace := runM (getBlogM c req)

/-- What one `deleteBlog` request does. -/
def deleteBlog (c : Collab) (req : Req) : Trace := runM (deleteBlogM c req)

/-- A fixed truthy document used as store answer in concrete runs. -/
def okDoc : Val := Val.obj [("title", .str "t")]

/-- A benign collaborator: every validation passes, the constructor is the
identity, every store call answers `okDoc`, every id is a valid ObjectId. -/
def collabOk : Collab where
  validateSchemaKeys := fun _ => .ok ⟨true, ""⟩
  validateUpdateSchemaKeys := fun _ => .ok ⟨true, ""⟩
  validateFindFilterKeys := fun _ => .ok ⟨true, ""⟩
  validateFindFilterKeysNoModel := fun _ => .ok ⟨true, ""⟩
  dbCreateDocument := fun _ => .ok okDoc
  dbCountDocument := fun _ => .ok (.num 5)
  dbGetAllDocuments := fun _ _ => .ok okDoc
  dbBulkUpdate := fun _ _ => .ok okDoc
  dbBulkInsert := fun _ => .ok okDoc
  dbDeleteMany := fun _ => .ok okDoc
  dbFindOneAndUpdateDocument := fun _ _ => .ok okDoc
  dbGetSingleDocument := fun _ _ => .ok okDoc
  dbFindOneAndDeleteDocument := fun _ => .ok okDoc
  newBlog := fun v => .ok v
  isValidObjectId := fun _ => true

/-- A collaborator whose every store call and constructor call throws `e`
while validation still passes: exercises the catch blocks. -/
def collabThrow (e : Err) : Collab where
  validateSchemaKeys := fun _ => .ok ⟨true, ""⟩
  validateUpdateSchemaKeys := fun _ => .ok ⟨true, ""⟩
  validateFindFilterKeys := fun _ => .ok ⟨true, ""⟩
  validateFindFilterKeysNoModel := fun _ => .ok ⟨true, ""⟩
  dbCreateDocument := fun _ => .error e
  dbCountDocument := fun _ => .error e
  dbGetAllDocuments := fun _ _ => .error e
  dbBulkUpdate := fun _ _ => .error e
  dbBulkInsert := fun _ => .error e
  dbDeleteMany := fun _ => .error e
  dbFindOneAndUpdateDocument := fun _ _ => .error e
  dbGetSingleDocument := fun _ _ => .error e
  dbFindOneAndDeleteDocument := fun _ => .error e
  newBlog := fun _ => .error e
  isValidObjectId := fun _ => true

/-- A duplicate-key error as the mongo driver raises one. -/
def dupErr : Err := ⟨"MongoServerError", .num 11000, "E11000 duplicate key"⟩

/-- The error translation `addBlog`, `bulkInsertBlog` and `updateBlog`
perform in their catch blocks, as a function. -/
def errResponse (e : Err) : Response :=
  if e.name == "ValidationError" then
    .validationError ("Invalid Data, Validation Failed at " ++ e.message)
  else if e.isDup then
    .validationError "Data duplication found."
  else
    .internalServerError e.message

/-- Modelled from the spec: the effect of a `dbService` update
(`bulkUpdate` / `findOneAndUpdateDocument`, which live outside this
repository slice) on one stored document — "set `isDeleted=true` +
`updatedBy` on matching documents": each payload field is written into the
document, every other field is untouched. -/
def applyUpdate (payload : List (String × Val)) (doc : List (String × Val)) :
    List (String × Val) :=
  payload.foldl (fun d p => setField d p.1 p.2) doc

/-- Modelled from the spec: a store update rewrites the matching documents
of a collection in place — "soft delete never removes the record, only
flags it" — so no document is removed. -/
def updateWhere (matchesQ : List (String × Val) → Bool)
    (payload : List (String × Val)) (docs : List (List (String × Val))) :
    List (List (String × Val)) :=
  docs.map (fun d => if matchesQ d then applyUpdate payload d else d)

/-- The validation oracle's verdict as a plain Bool: `false` both when the
validator throws and when it answers invalid. -/
def isValidRes (r : Except Err ValidateResult) : Bool :=
  match r with
  | .ok v => v.isValid
  | .error _ => false

/-- The response list never shrinks along a computation. -/
def RspMono {α : Type} (m : M α) : Prop :=
  ∀ t : Trace, t.rsps.length ≤ ((m t).1).rsps.length

/-- The computation never falls off its end: its outcome is never `.ok`
(every exit of the controller bodies is a `return res.X(...)` or a throw). -/
def NeverFalls (m : M Unit) : Prop :=
  ∀ (t : Trace) (a : Unit), (m t).2 ≠ .ok a

/-- When the computation leaves by `return`, it has responded at least
once on the way. -/
def RetEmits {α : Type} (m : M α) : Prop :=
  ∀ t : Trace, (m t).2 = .ret → t.rsps.length < ((m t).1).rsps.length

/-- A step that both keeps responses and, on `return`, has responded. -/
def StepOk {α : Type} (m : M α) : Prop := RspMono m ∧ RetEmits m

/-- A statement block that keeps responses, responds before any `return`,
and never falls off its end. -/
def TermOk (m : M Unit) : Prop := RspMono m ∧ RetEmits m ∧ NeverFalls m

/-- Every external call the computation appends to the trace satisfies
`p`. -/
def OpsOnly (p : ExtCall → Prop) {α : Type} (m : M α) : Prop :=
  ∀ (t : Trace) (op : ExtCall), op ∈ ((m t).1).ops → op ∈ t.ops ∨ p op

/-- The request of the `updateBlog` counterexample: a client smuggling an
`addedBy` of its choice into the update body. -/
def evilReq : Req := ⟨[("addedBy", .str "evil")], .str "b1", .str "u1"⟩

/-- A request whose body asks only for a count. -/
def countReq : Req := ⟨[("isCountOnly", .bool true)], .undefined, .str "u1"⟩

/-- A plain list request (no `isCountOnly`). -/
def listReq : Req := ⟨[], .undefined, .str "u1"⟩

/-- A request with a one-element `ids` list. -/
def idsReq : Req := ⟨[("ids", .arr [.str "b1"])], .undefined, .str "u1"⟩

/-- A request with no `ids` (and no `data`) in its body. -/
def emptyBodyReq : Req := ⟨[], .str "b1", .str "u1"⟩

/-- A request with a missing path id and a small valid body. -/
def noIdReq : Req := ⟨[("title", .str "x")], .undefined, .str "u1"⟩

/-- A request with a present path id and a small body carrying both
ownership fields from the client. -/
def ownReq : Req :=
  ⟨[("addedBy", .str "evil"), ("updatedBy", .str "evil2")], .str "b1", .str "u1"⟩

/-- A bulk-update request whose `data` carries a client `addedBy`. -/
def bulkReq : Req :=
  ⟨[("filter", .obj [("a", .num 1)]),
    ("data", .obj [("addedBy", .str "evil"), ("x", .num 2)])], .undefined, .str "u1"⟩

/-- A bulk-insert request with one item carrying a client `addedBy`. -/
def insReq : Req :=
  ⟨[("data", .arr [.obj [("addedBy", .str "evil"), ("x", .num 2)]])],
    .undefined, .str "u1"⟩

/-- Unfolding lemma for `bind` in the handler monad. -/
theorem bindM_def {α β : Type} (x : M α) (f : α → M β) (t : Trace) :
    (x >>= f) t =
      match x t with
      | (t2, .ok a) => f a t2
      | (t2, .ret) => (t2, .ret)
      | (t2, .thrown e) => (t2, .thrown e) := rfl

/-- Unfolding lemma for `pure` in the handler monad. -/
theorem pureM_def {α : Type} (a : α) (t : Trace) :
    (pure a : M α) t = (t, .ok a) := rfl

/-- Unfolding lemma for `tryCatch`. -/
theorem tryCatch_def (body : M Unit) (hnd : Err → M Unit) (t : Trace) :
    tryCatch body hnd t =
      match body t with
      | (t2, .thrown e) => hnd e t2
      | (t2, _) => (t2, .ok ()) := rfl

/-- Looking up the key an object literal just wrote yields that value. -/
theorem lookupField_setField_self (fs : List (String × Val)) (k : String)
    (v : Val) : lookupField (setField fs k v) k = some v := by
  induction fs with
  | nil => simp [setField, lookupField]
  | cons p rest ih =>
    by_cases h : p.1 = k
    · simp [setField, lookupField, h]
    · simp [setField, lookupField, h, ih]

/-- Writing one key leaves lookups of other keys unchanged. -/
theorem lookupField_setField_ne (fs : List (String × Val)) {k k2 : String}
    (v : Val) (h : k ≠ k2) :
    lookupField (setField fs k2 v) k = lookupField fs k := by
  induction fs with
  | nil => simp [setField, lookupField, Ne.symm h]
  | cons p rest ih =>
    rcases p with ⟨k1, w⟩
    by_cases h2 : k1 = k2
    · subst h2
      simp [setField, lookupField, Ne.symm h]
    · by_cases h3 : k1 = k <;>
        simp [setField, lookupField, h, h2, h3, ih]

/-- `delete o[k]` leaves no occurrence of `k`. -/
theorem hasField_eraseField_self (fs : List (String × Val)) (k : String) :
    hasField (eraseField fs k) k = false := by
  induction fs with
  | nil => rfl
  | cons p rest ih =>
    by_cases h : p.1 = k
    · simp [eraseField, List.filter_cons, h]
      simp only [eraseField] at ih
      exact ih
    · simp [eraseField, hasField, List.filter_cons, h]

/-- Writing one key does not create another. -/
theorem hasField_setField_ne (fs : List (String × Val)) {k k2 : String}
    (v : Val) (h : k ≠ k2) :
    hasField (setField fs k2 v) k = hasField fs k := by
  induction fs with
  | nil => simp [setField, hasField, Ne.symm h]
  | cons p rest ih =>
    by_cases h2 : p.1 = k2 <;> simp_all [setField, hasField]

/-- `getField` after a `setField` of the same key. -/
theorem getField_setField_self (fs : List (String × Val)) (k : String)
    (v : Val) : (Val.obj (setField fs k v)).getField k = v := by
  simp [Val.getField, lookupField_setField_self]


/-- `pure` is a well-behaved step. -/
theorem stepOk_pure {α : Type} (a : α) : StepOk (pure a : M α) := by
  constructor <;> intro t <;> simp [pureM_def]

/-- `emit` is a well-behaved step. -/
theorem stepOk_emit (r : Response) : StepOk (emit r) := by
  constructor <;> intro t <;> simp [emit]

/-- `retResp` is a well-behaved step: it returns, and it has responded. -/
theorem stepOk_retResp (r : Response) : StepOk (retResp r) := by
  constructor <;> intro t <;> simp [retResp]

/-- `call` is a well-behaved step. -/
theorem stepOk_call (op : ExtCall) (r : Except Err Val) : StepOk (call op r) := by
  constructor <;> intro t <;> cases r <;> simp [call]

/-- `callV` is a well-behaved step. -/
theorem stepOk_callV (r : Except Err ValidateResult) : StepOk (callV r) := by
  constructor <;> intro t <;> cases r <;> simp [callV]

/-- Binding a well-behaved step with well-terminating continuations is
well-terminating. -/
theorem termOk_bind {α : Type} {x : M α} {f : α → M Unit}
    (hx : StepOk x) (hf : ∀ a, TermOk (f a)) : TermOk (x >>= f) := by
  refine ⟨?_, ?_, ?_⟩
  · intro t
    rw [bindM_def]
    rcases hxt : x t with ⟨t2, o⟩
    have h1 := hx.1 t
    rw [hxt] at h1
    cases o with
    | ok a => exact le_trans h1 ((hf a).1 t2)
    | ret => simpa using h1
    | thrown e => simpa using h1
  · intro t hret
    rw [bindM_def] at hret ⊢
    rcases hxt : x t with ⟨t2, o⟩
    rw [hxt] at hret
    have h1 := hx.1 t
    rw [hxt] at h1
    cases o with
    | ok a =>
      simp only at hret ⊢
      exact lt_of_le_of_lt h1 ((hf a).2.1 t2 hret)
    | ret =>
      have h2 := hx.2 t
      rw [hxt] at h2
      simpa using h2 rfl
    | thrown e => simp at hret
  · intro t a
    rw [bindM_def]
    rcases hxt : x t with ⟨t2, o⟩
    cases o with
    | ok b => exact (hf b).2.2 t2 a
    | ret => simp
    | thrown e => simp

/-- An if-statement with well-terminating branches is well-terminating. -/
theorem termOk_ite {c : Prop} [Decidable c] {x y : M Unit}
    (hx : TermOk x) (hy : TermOk y) : TermOk (if c then x else y) := by
  by_cases h : c <;> simp [h] <;> assumption

/-- `return res.X(...)` terminates a block correctly. -/
theorem termOk_retResp (r : Response) : TermOk (retResp r) := by
  refine ⟨?_, ?_, ?_⟩ <;> intro t <;> simp [retResp]

/-- A well-behaved conditional step. -/
theorem stepOk_ite {α : Type} {c : Prop} [Decidable c] {x y : M α}
    (hx : StepOk x) (hy : StepOk y) : StepOk (if c then x else y) := by
  by_cases h : c <;> simp [h] <;> assumption

/-- `tryCatch` never propagates when the catch block does not throw. -/
theorem noThrow_tryCatch {body : M Unit} {hnd : Err → M Unit}
    (hh : ∀ e, noThrow (hnd e)) : noThrow (tryCatch body hnd) := by
  intro t e
  rw [tryCatch_def]
  rcases hbt : body t with ⟨t2, o⟩
  cases o with
  | ok a => simp
  | ret => simp
  | thrown e2 => exact hh e2 t2 e

/-- A handler whose try block is well-terminating and whose catch block
always responds, responds: the response list strictly grows. -/
theorem responds_tryCatch {body : M Unit} {hnd : Err → M Unit}
    (hb : TermOk body)
    (hh : ∀ (e : Err) (t : Trace), t.rsps.length < ((hnd e t).1).rsps.length) :
    ∀ t : Trace, t.rsps.length < ((tryCatch body hnd t).1).rsps.length := by
  intro t
  rw [tryCatch_def]
  rcases hbt : body t with ⟨t2, o⟩
  have hm := hb.1 t
  rw [hbt] at hm
  cases o with
  | ok a =>
    have := hb.2.2 t a
    rw [hbt] at this
    simp at this
  | ret =>
    have := hb.2.1 t
    rw [hbt] at this
    simpa using this rfl
  | thrown e => exact lt_of_le_of_lt hm (hh e t2)

/-- The shared distinguishing catch block always responds exactly once. -/
theorem catchDistinguish_grows (e : Err) (t : Trace) :
    t.rsps.length < ((catchDistinguish e t).1).rsps.length := by
  unfold catchDistinguish
  split <;> [skip; split] <;> simp [retResp]

/-- The generic catch block always responds exactly once. -/
theorem catchGeneric_grows (e : Err) (t : Trace) :
    t.rsps.length < ((catchGeneric e t).1).rsps.length := by
  simp [catchGeneric, retResp]

/-- The distinguishing catch block never rethrows. -/
theorem catchDistinguish_noThrow (e : Err) : noThrow (catchDistinguish e) := by
  intro t e2
  unfold catchDistinguish
  split <;> [skip; split] <;> simp [retResp]

/-- The generic catch block never rethrows. -/
theorem catchGeneric_noThrow (e : Err) : noThrow (catchGeneric e) := by
  intro t e2
  simp [catchGeneric, retResp]

/-- The distinguishing catch block is `retResp` of `errResponse`. -/
theorem catchDistinguish_eq (e : Err) :
    catchDistinguish e = retResp (errResponse e) := by
  unfold catchDistinguish errResponse
  split <;> [rfl; split <;> rfl]

/-- `pure` adds no external call. -/
theorem opsOnly_pure {α : Type} (p : ExtCall → Prop) (a : α) :
    OpsOnly p (pure a : M α) := by
  intro t op h
  left
  simpa [pureM_def] using h

/-- `emit` adds no external call. -/
theorem opsOnly_emit (p : ExtCall → Prop) (r : Response) :
    OpsOnly p (emit r) := by
  intro t op h
  left
  simpa [emit] using h

/-- `retResp` adds no external call. -/
theorem opsOnly_retResp (p : ExtCall → Prop) (r : Response) :
    OpsOnly p (retResp r) := by
  intro t op h
  left
  simpa [retResp] using h

/-- `callV` adds no external call. -/
theorem opsOnly_callV (p : ExtCall → Prop) (r : Except Err ValidateResult) :
    OpsOnly p (callV r) := by
  intro t op h
  left
  cases r <;> simpa [callV] using h

/-- `call` adds exactly its own operation. -/
theorem opsOnly_call {p : ExtCall → Prop} (op : ExtCall)
    (r : Except Err Val) (hp : p op) : OpsOnly p (call op r) := by
  intro t op2 h
  have h2 : op2 ∈ t.ops ++ [op] := by
    cases r <;> simpa [call] using h
  rcases List.mem_append.1 h2 with h3 | h3
  · exact Or.inl h3
  · right
    rw [List.mem_singleton.1 h3]
    exact hp

/-- `bind` adds only calls its pieces add. -/
theorem opsOnly_bind {α β : Type} {p : ExtCall → Prop} {x : M α}
    {f : α → M β} (hx : OpsOnly p x) (hf : ∀ a, OpsOnly p (f a)) :
    OpsOnly p (x >>= f) := by
  intro t op h
  rw [bindM_def] at h
  rcases hxt : x t with ⟨t2, o⟩
  rw [hxt] at h
  have hx2 := hx t
  rw [hxt] at hx2
  cases o with
  | ok a =>
    rcases hf a t2 op (by simpa using h) with h2 | h2
    · exact hx2 op h2
    · exact Or.inr h2
  | ret => exact hx2 op (by simpa using h)
  | thrown e => exact hx2 op (by simpa using h)

/-- A conditional adds only calls its branches add. -/
theorem opsOnly_ite {α : Type} {p : ExtCall → Prop} {c : Prop} [Decidable c]
    {x y : M α} (hx : OpsOnly p x) (hy : OpsOnly p y) :
    OpsOnly p (if c then x else y) := by
  by_cases h : c <;> simp [h] <;> assumption

/-- `tryCatch` adds only calls its try and catch blocks add. -/
theorem opsOnly_tryCatch {p : ExtCall → Prop} {body : M Unit}
    {hnd : Err → M Unit} (hb : OpsOnly p body)
    (hh : ∀ e, OpsOnly p (hnd e)) : OpsOnly p (tryCatch body hnd) := by
  intro t op h
  rw [tryCatch_def] at h
  rcases hbt : body t with ⟨t2, o⟩
  rw [hbt] at h
  have hb2 := hb t
  rw [hbt] at hb2
  cases o with
  | ok a => exact hb2 op (by simpa using h)
  | ret => exact hb2 op (by simpa using h)
  | thrown e =>
    rcases hh e t2 op (by simpa using h) with h2 | h2
    · exact hb2 op h2
    · exact Or.inr h2

/-- The distinguishing catch block touches no external call. -/
theorem opsOnly_catchDistinguish (p : ExtCall → Prop) (e : Err) :
    OpsOnly p (catchDistinguish e) := by
  rw [catchDistinguish_eq]
  exact opsOnly_retResp p _

/-- The generic catch block touches no external call. -/
theorem opsOnly_catchGeneric (p : ExtCall → Prop) (e : Err) :
    OpsOnly p (catchGeneric e) := by
  exact opsOnly_retResp p _

/-- Transport an `OpsOnly` fact to the operations of a full run. -/
theorem opsOnly_run {p : ExtCall → Prop} {m : M Unit} (h : OpsOnly p m) :
    ∀ op ∈ (runM m).ops, p op := by
  intro op hop
  rcases h Trace.empty op hop with h2 | h2
  · simp [Trace.empty] at h2
  · exact h2

/-- The try block of `addBlog` is well-terminating. -/
theorem addBlogTry_termOk (c : Collab) (req : Req) : TermOk (addBlogTry c req) := by
  unfold addBlogTry
  repeat' first
    | exact termOk_retResp _
    | apply termOk_bind
    | apply termOk_ite
    | exact stepOk_pure _
    | exact stepOk_emit _
    | exact stepOk_retResp _
    | exact stepOk_call _ _
    | exact stepOk_callV _
    | apply stepOk_ite
    | intro a

/-- The try block of `findAllBlog` is well-terminating. -/
theorem findAllBlogTry_termOk (c : Collab) (req : Req) :
    TermOk (findAllBlogTry c req) := by
  unfold findAllBlogTry
  repeat' first
    | exact termOk_retResp _
    | apply termOk_bind
    | apply termOk_ite
    | exact stepOk_pure _
    | exact stepOk_emit _
    | exact stepOk_retResp _
    | exact stepOk_call _ _
    | exact stepOk_callV _
    | apply stepOk_ite
    | intro a

/-- The try block of `getBlogCount` is well-terminating. -/
theorem getBlogCountTry_termOk (c : Collab) (req : Req) :
    TermOk (getBlogCountTry c req) := by
  unfold getBlogCountTry
  repeat' first
    | exact termOk_retResp _
    | apply termOk_bind
    | apply termOk_ite
    | exact stepOk_pure _
    | exact stepOk_emit _
    | exact stepOk_retResp _
    | exact stepOk_call _ _
    | exact stepOk_callV _
    | apply stepOk_ite
    | intro a

/-- The try block of `softDeleteManyBlog` is well-terminating. -/
theorem softDeleteManyBlogTry_termOk (c : Collab) (req : Req) :
    TermOk (softDeleteManyBlogTry c req) := by
  unfold softDeleteManyBlogTry
  repeat' first
    | exact termOk_retResp _
    | apply termOk_bind
    | apply termOk_ite
    | exact stepOk_pure _
    | exact stepOk_emit _
    | exact stepOk_retResp _
    | exact stepOk_call _ _
    | exact stepOk_callV _
    | apply stepOk_ite
    | intro a

/-- The try block of `bulkInsertBlog` is well-terminating. -/
theorem bulkInsertBlogTry_termOk (c : Collab) (req : Req) :
    TermOk (bulkInsertBlogTry c req) := by
  unfold bulkInsertBlogTry
  repeat' first
    | exact termOk_retResp _
    | apply termOk_bind
    | apply termOk_ite
    | exact stepOk_pure _
    | exact stepOk_emit _
    | exact stepOk_retResp _
    | exact stepOk_call _ _
    | exact stepOk_callV _
    | apply stepOk_ite
    | intro a

/-- The try block of `bulkUpdateBlog` is well-terminating. -/
theorem bulkUpdateBlogTry_termOk (c : Collab) (req : Req) :
    TermOk (bulkUpdateBlogTry c req) := by
  unfold bulkUpdateBlogTry
  repeat' first
    | exact termOk_retResp _
    | apply termOk_bind
    | apply termOk_ite
    | exact stepOk_pure _
    | exact stepOk_emit _
    | exact stepOk_retResp _
    | exact stepOk_call _ _
    | exact stepOk_callV _
    | apply stepOk_ite
    | intro a

/-- The try block of `deleteManyBlog` is well-terminating. -/
theorem deleteManyBlogTry_termOk (c : Collab) (req : Req) :
    TermOk (deleteManyBlogTry c req) := by
  unfold deleteManyBlogTry
  repeat' first
    | exact termOk_retResp _
    | apply termOk_bind
    | apply termOk_ite
    | exact stepOk_pure _
    | exact stepOk_emit _
    | exact stepOk_retResp _
    | exact stepOk_call _ _
    | exact stepOk_callV _
    | apply stepOk_ite
    | intro a

/-- The try block of `softDeleteBlog` is well-terminating. -/
theorem softDeleteBlogTry_termOk (c : Collab) (req : Req) :
    TermOk (softDeleteBlogTry c req) := by
  unfold softDeleteBlogTry
  repeat' first
    | exact termOk_retResp _
    | apply termOk_bind
    | apply termOk_ite
    | exact stepOk_pure _
    | exact stepOk_emit _
    | exact stepOk_retResp _
    | exact stepOk_call _ _
    | exact stepOk_callV _
    | apply stepOk_ite
    | intro a

/-- The try block of `partialUpdateBlog` is well-terminating. -/
theorem partialUpdateBlogTry_termOk (c : Collab) (req : Req) :
    TermOk (partialUpdateBlogTry c req) := by
  unfold partialUpdateBlogTry
  repeat' first
    | exact termOk_retResp _
    | apply termOk_bind
    | apply termOk_ite
    | exact stepOk_pure _
    | exact stepOk_emit _
    | exact stepOk_retResp _
    | exact stepOk_call _ _
    | exact stepOk_callV _
    | apply stepOk_ite
    | intro a

/-- The try block of `updateBlog` is well-terminating. -/
theorem updateBlogTry_termOk (c : Collab) (req : Req) :
    TermOk (updateBlogTry c req) := by
  unfold updateBlogTry
  repeat' first
    | exact termOk_retResp _
    | apply termOk_bind
    | apply termOk_ite
    | exact stepOk_pure _
    | exact stepOk_emit _
    | exact stepOk_retResp _
    | exact stepOk_call _ _
    | exact stepOk_callV _
    | apply stepOk_ite
    | intro a

/-- The try block of `getBlog` is well-terminating. -/
theorem getBlogTry_termOk (c : Collab) (req : Req) : TermOk (getBlogTry c req) := by
  unfold getBlogTry
  repeat' first
    | exact termOk_retResp _
    | apply termOk_bind
    | apply termOk_ite
    | exact stepOk_pure _
    | exact stepOk_emit _
    | exact stepOk_retResp _
    | exact stepOk_call _ _
    | exact stepOk_callV _
    | apply stepOk_ite
    | intro a

/-- The try block of `deleteBlog` is well-terminating. -/
theorem deleteBlogTry_termOk (c : Collab) (req : Req) :
    TermOk (deleteBlogTry c req) := by
  unfold deleteBlogTry
  repeat' first
    | exact termOk_retResp _
    | apply termOk_bind
    | apply termOk_ite
    | exact stepOk_pure _
    | exact stepOk_emit _
    | exact stepOk_retResp _
    | exact stepOk_call _ _
    | exact stepOk_callV _
    | apply stepOk_ite
    | intro a

/-- Every model-constructor call `addBlog` makes receives the body with
`addedBy` overwritten by the user id. -/
theorem addBlogM_ctorArg (c : Collab) (req : Req) :
    OpsOnly (fun op => ∀ v, op = ExtCall.newBlog v → v = addBlogCtorArg req)
      (addBlogM c req) := by
  unfold addBlogM addBlogTry
  repeat' first
    | apply opsOnly_tryCatch
    | exact opsOnly_catchDistinguish _ _
    | exact opsOnly_catchGeneric _ _
    | apply opsOnly_bind
    | apply opsOnly_ite
    | exact opsOnly_retResp _ _
    | exact opsOnly_emit _ _
    | exact opsOnly_callV _ _
    | exact opsOnly_pure _ _
    | exact opsOnly_call _ _ (by intro v h; simp_all)
    | intro a

/-- Every bulk-insert call `bulkInsertBlog` makes receives exactly the
item list with `addedBy` injected per item. -/
theorem bulkInsertBlogM_payloadOnly (c : Collab) (req : Req) :
    OpsOnly (fun op => ∀ v, op = ExtCall.bulkInsert v → v = bulkInsertPayload req)
      (bulkInsertBlogM c req) := by
  unfold bulkInsertBlogM bulkInsertBlogTry
  repeat' first
    | apply opsOnly_tryCatch
    | exact opsOnly_catchDistinguish _ _
    | exact opsOnly_catchGeneric _ _
    | apply opsOnly_bind
    | apply opsOnly_ite
    | exact opsOnly_retResp _ _
    | exact opsOnly_emit _ _
    | exact opsOnly_callV _ _
    | exact opsOnly_pure _ _
    | exact opsOnly_call _ _ (by intro v h; simp_all)
    | intro a

/-- Every bulk-update call `bulkUpdateBlog` makes carries exactly the
payload with `addedBy` deleted (and `updatedBy` injected when `data` is an
object). -/
theorem bulkUpdateBlogM_payloadOnly (c : Collab) (req : Req) :
    OpsOnly (fun op => ∀ q d, op = ExtCall.bulkUpdate q d →
        d = Val.obj (bulkUpdateBlogData req))
      (bulkUpdateBlogM c req) := by
  unfold bulkUpdateBlogM bulkUpdateBlogTry
  repeat' first
    | apply opsOnly_tryCatch
    | exact opsOnly_catchDistinguish _ _
    | exact opsOnly_catchGeneric _ _
    | apply opsOnly_bind
    | apply opsOnly_ite
    | exact opsOnly_retResp _ _
    | exact opsOnly_emit _ _
    | exact opsOnly_callV _ _
    | exact opsOnly_pure _ _
    | exact opsOnly_call _ _ (by intro q d h; simp_all)
    | intro a

/-- Every store update `partialUpdateBlog` issues carries exactly its
stripped-and-stamped payload. -/
theorem partialUpdateBlogM_payloadOnly (c : Collab) (req : Req) :
    OpsOnly (fun op => ∀ q d, op = ExtCall.findOneAndUpdateDocument q d →
        d = Val.obj (partialUpdateBlogData req))
      (partialUpdateBlogM c req) := by
  unfold partialUpdateBlogM partialUpdateBlogTry
  repeat' first
    | apply opsOnly_tryCatch
    | exact opsOnly_catchDistinguish _ _
    | exact opsOnly_catchGeneric _ _
    | apply opsOnly_bind
    | apply opsOnly_ite
    | exact opsOnly_retResp _ _
    | exact opsOnly_emit _ _
    | exact opsOnly_callV _ _
    | exact opsOnly_pure _ _
    | exact opsOnly_call _ _ (by intro q d h; simp_all)
    | intro a

/-- Every store update `updateBlog` issues carries exactly its payload:
the body spread as-is plus `updatedBy`. -/
theorem updateBlogM_payloadOnly (c : Collab) (req : Req) :
    OpsOnly (fun op => ∀ q d, op = ExtCall.findOneAndUpdateDocument q d →
        d = Val.obj (updateBlogData req))
      (updateBlogM c req) := by
  unfold updateBlogM updateBlogTry
  repeat' first
    | apply opsOnly_tryCatch
    | exact opsOnly_catchDistinguish _ _
    | exact opsOnly_catchGeneric _ _
    | apply opsOnly_bind
    | apply opsOnly_ite
    | exact opsOnly_retResp _ _
    | exact opsOnly_emit _ _
    | exact opsOnly_callV _ _
    | exact opsOnly_pure _ _
    | exact opsOnly_call _ _ (by intro q d h; simp_all)
    | intro a

/-- The only external call `softDeleteBlog` can make is the one
soft-delete update. -/
theorem softDeleteBlogM_updateOnly (c : Collab) (req : Req) :
    OpsOnly (fun op => op = ExtCall.findOneAndUpdateDocument (idQuery req)
        (Val.obj (softDeleteBody req)))
      (softDeleteBlogM c req) := by
  unfold softDeleteBlogM softDeleteBlogTry
  repeat' first
    | apply opsOnly_tryCatch
    | exact opsOnly_catchDistinguish _ _
    | exact opsOnly_catchGeneric _ _
    | apply opsOnly_bind
    | apply opsOnly_ite
    | exact opsOnly_retResp _ _
    | exact opsOnly_emit _ _
    | exact opsOnly_callV _ _
    | exact opsOnly_pure _ _
    | exact opsOnly_call _ _ rfl
    | intro a

/-- The only external call `softDeleteManyBlog` can make is the one
soft-delete bulk update. -/
theorem softDeleteManyBlogM_updateOnly (c : Collab) (req : Req) :
    OpsOnly (fun op => op = ExtCall.bulkUpdate (idsQuery req)
        (Val.obj (softDeleteBody req)))
      (softDeleteManyBlogM c req) := by
  unfold softDeleteManyBlogM softDeleteManyBlogTry
  repeat' first
    | apply opsOnly_tryCatch
    | exact opsOnly_catchDistinguish _ _
    | exact opsOnly_catchGeneric _ _
    | apply opsOnly_bind
    | apply opsOnly_ite
    | exact opsOnly_retResp _ _
    | exact opsOnly_emit _ _
    | exact opsOnly_callV _ _
    | exact opsOnly_pure _ _
    | exact opsOnly_call _ _ rfl
    | intro a

/-- `addBlog` issues no delete operation. -/
theorem addBlogM_noDelete (c : Collab) (req : Req) :
    OpsOnly (fun op => op.isDeleteOp = false) (addBlogM c req) := by
  unfold addBlogM addBlogTry
  repeat' first
    | apply opsOnly_tryCatch
    | exact opsOnly_catchDistinguish _ _
    | exact opsOnly_catchGeneric _ _
    | apply opsOnly_bind
    | apply opsOnly_ite
    | exact opsOnly_retResp _ _
    | exact opsOnly_emit _ _
    | exact opsOnly_callV _ _
    | exact opsOnly_pure _ _
    | exact opsOnly_call _ _ rfl
    | intro a

/-- `findAllBlog` issues no delete operation. -/
theorem findAllBlogM_noDelete (c : Collab) (req : Req) :
    OpsOnly (fun op => op.isDeleteOp = false) (findAllBlogM c req) := by
  unfold findAllBlogM findAllBlogTry
  repeat' first
    | apply opsOnly_tryCatch
    | exact opsOnly_catchDistinguish _ _
    | exact opsOnly_catchGeneric _ _
    | apply opsOnly_bind
    | apply opsOnly_ite
    | exact opsOnly_retResp _ _
    | exact opsOnly_emit _ _
    | exact opsOnly_callV _ _
    | exact opsOnly_pure _ _
    | exact opsOnly_call _ _ rfl
    | intro a

/-- `getBlogCount` issues no delete operation. -/
theorem getBlogCountM_noDelete (c : Collab) (req : Req) :
    OpsOnly (fun op => op.isDeleteOp = false) (getBlogCountM c req) := by
  unfold getBlogCountM getBlogCountTry
  repeat' first
    | apply opsOnly_tryCatch
    | exact opsOnly_catchDistinguish _ _
    | exact opsOnly_catchGeneric _ _
    | apply opsOnly_bind
    | apply opsOnly_ite
    | exact opsOnly_retResp _ _
    | exact opsOnly_emit _ _
    | exact opsOnly_callV _ _
    | exact opsOnly_pure _ _
    | exact opsOnly_call _ _ rfl
    | intro a

/-- `bulkInsertBlog` issues no delete operation. -/
theorem bulkInsertBlogM_noDelete (c : Collab) (req : Req) :
    OpsOnly (fun op => op.isDeleteOp = false) (bulkInsertBlogM c req) := by
  unfold bulkInsertBlogM bulkInsertBlogTry
  repeat' first
    | apply opsOnly_tryCatch
    | exact opsOnly_catchDistinguish _ _
    | exact opsOnly_catchGeneric _ _
    | apply opsOnly_bind
    | apply opsOnly_ite
    | exact opsOnly_retResp _ _
    | exact opsOnly_emit _ _
    | exact opsOnly_callV _ _
    | exact opsOnly_pure _ _
    | exact opsOnly_call _ _ rfl
    | intro a

/-- `bulkUpdateBlog` issues no delete operation. -/
theorem bulkUpdateBlogM_noDelete (c : Collab) (req : Req) :
    OpsOnly (fun op => op.isDeleteOp = false) (bulkUpdateBlogM c req) := by
  unfold bulkUpdateBlogM bulkUpdateBlogTry
  repeat' first
    | apply opsOnly_tryCatch
    | exact opsOnly_catchDistinguish _ _
    | exact opsOnly_catchGeneric _ _
    | apply opsOnly_bind
    | apply opsOnly_ite
    | exact opsOnly_retResp _ _
    | exact opsOnly_emit _ _
    | exact opsOnly_callV _ _
    | exact opsOnly_pure _ _
    | exact opsOnly_call _ _ rfl
    | intro a

/-- `partialUpdateBlog` issues no delete operation. -/
theorem partialUpdateBlogM_noDelete (c : Collab) (req : Req) :
    OpsOnly (fun op => op.isDeleteOp = false) (partialUpdateBlogM c req) := by
  unfold partialUpdateBlogM partialUpdateBlogTry
  repeat' first
    | apply opsOnly_tryCatch
    | exact opsOnly_catchDistinguish _ _
    | exact opsOnly_catchGeneric _ _
    | apply opsOnly_bind
    | apply opsOnly_ite
    | exact opsOnly_retResp _ _
    | exact opsOnly_emit _ _
    | exact opsOnly_callV _ _
    | exact opsOnly_pure _ _
    | exact opsOnly_call _ _ rfl
    | intro a

/-- `updateBlog` issues no delete operation. -/
theorem updateBlogM_noDelete (c : Collab) (req : Req) :
    OpsOnly (fun op => op.isDeleteOp = false) (updateBlogM c req) := by
  unfold updateBlogM updateBlogTry
  repeat' first
    | apply opsOnly_tryCatch
    | exact opsOnly_catchDistinguish _ _
    | exact opsOnly_catchGeneric _ _
    | apply opsOnly_bind
    | apply opsOnly_ite
    | exact opsOnly_retResp _ _
    | exact opsOnly_emit _ _
    | exact opsOnly_callV _ _
    | exact opsOnly_pure _ _
    | exact opsOnly_call _ _ rfl
    | intro a

/-- `getBlog` issues no delete operation. -/
theorem getBlogM_noDelete (c : Collab) (req : Req) :
    OpsOnly (fun op => op.isDeleteOp = false) (getBlogM c req) := by
  unfold getBlogM getBlogTry
  repeat' first
    | apply opsOnly_tryCatch
    | exact opsOnly_catchDistinguish _ _
    | exact opsOnly_catchGeneric _ _
    | apply opsOnly_bind
    | apply opsOnly_ite
    | exact opsOnly_retResp _ _
    | exact opsOnly_emit _ _
    | exact opsOnly_callV _ _
    | exact opsOnly_pure _ _
    | exact opsOnly_call _ _ rfl
    | intro a

/-- A handler built as try/catch with a well-terminating body and a
responding catch block always responds at least once. -/
theorem runM_rsps_ne_nil {body : M Unit} {hnd : Err → M Unit}
    (hb : TermOk body)
    (hh : ∀ (e : Err) (t : Trace), t.rsps.length < ((hnd e t).1).rsps.length) :
    (runM (tryCatch body hnd)).rsps ≠ [] := by
  have h := responds_tryCatch hb hh Trace.empty
  intro hnil
  unfold runM at hnil
  rw [hnil] at h
  simp [Trace.empty] at h

/-- C2: for every request whose `ids` list (softDeleteManyBlog,
deleteManyBlog) or `data` array (bulkInsertBlog) fails the guard — it is
missing (hence `undefined`), not an array, or an empty array — the handler
answers exactly one bad-request response and no store operation is invoked
before (or after) it; and the guards do flag the missing, non-array and
empty cases. -/
theorem C2_bulk_guards (c : Collab) (req : Req) :
    (idsBad ((Val.obj req.body).getField "ids") = true →
      softDeleteManyBlog c req = ⟨[], [.badRequest]⟩) ∧
    (idsBad ((Val.obj req.body).getField "ids") = true →
      deleteManyBlog c req = ⟨[], [.badRequest]⟩) ∧
    (dataBad ((Val.obj req.body).getField "data") = true →
      bulkInsertBlog c req = ⟨[], [.badRequest]⟩) ∧
    idsBad Val.undefined = true ∧ idsBad (Val.arr []) = true ∧
    (∀ v : Val, v.isArray = false → idsBad v = true) ∧
    dataBad Val.undefined = true ∧ dataBad (Val.arr []) = true ∧
    (∀ v : Val, v.isArray = false → dataBad v = true) := by
  refine ⟨?_, ?_, ?_, by decide, by decide, ?_, by decide, by decide, ?_⟩
  · intro h
    unfold softDeleteManyBlog runM softDeleteManyBlogM softDeleteManyBlogTry
    simp [tryCatch_def, bindM_def, pureM_def, retResp, h, Trace.empty]
  · intro h
    unfold deleteManyBlog runM deleteManyBlogM deleteManyBlogTry
    simp [tryCatch_def, bindM_def, pureM_def, retResp, h, Trace.empty]
  · intro h
    unfold bulkInsertBlog runM bulkInsertBlogM bulkInsertBlogTry
    simp [tryCatch_def, bindM_def, pureM_def, retResp, h, Trace.empty]
  · intro v h
    simp [idsBad, h]
  · intro v h
    simp [dataBad, h]

/-- C2 witness: a request with no `ids` in its body is rejected with a
bad-request response, with the store untouched. -/
theorem C2_bulk_guards_witness :
    idsBad ((Val.obj emptyBodyReq.body).getField "ids") = true ∧
    softDeleteManyBlog collabOk emptyBodyReq = ⟨[], [.badRequest]⟩ :=
  ⟨rfl, (C2_bulk_guards collabOk emptyBodyReq).1 rfl⟩

/-- C4: for a valid count-only findAllBlog request the handler answers
success with only `{totalRecords}` from the count operation, and
`getAllDocuments` is never invoked (whatever the count call does). -/
theorem C4_count_only (c : Collab) (req : Req)
    (hv : isValidRes (c.validateFindFilterKeys (Val.obj req.body)) = true)
    (hco : ((Val.obj req.body).getField "isCountOnly").truthy = true) :
    (∀ n : Val, c.dbCountDocument (findAllQuery req) = .ok n →
      findAllBlog c req =
        ⟨[.countDocument (findAllQuery req)],
          [successData (Val.obj [("totalRecords", n)])]⟩) ∧
    (∀ q o : Val, ¬ ExtCall.getAllDocuments q o ∈ (findAllBlog c req).ops) := by
  rcases hvv : c.validateFindFilterKeys (Val.obj req.body) with e | v
  · rw [hvv] at hv
    simp [isValidRes] at hv
  · rw [hvv] at hv
    simp only [isValidRes] at hv
    constructor
    · intro n hn
      unfold findAllBlog runM findAllBlogM findAllBlogTry
      simp [tryCatch_def, bindM_def, pureM_def, retResp, callV, call, hvv, hv,
        hco, hn, Trace.empty, successData]
    · intro q o
      rcases hn : c.dbCountDocument (findAllQuery req) with e2 | n <;>
      · unfold findAllBlog runM findAllBlogM findAllBlogTry
        simp [tryCatch_def, bindM_def, pureM_def, retResp, callV, call, hvv,
          hv, hco, hn, Trace.empty, catchGeneric]

/-- C4 witness: a count-only request at a benign store lists nothing and
returns the count. -/
theorem C4_count_only_witness :
    isValidRes (collabOk.validateFindFilterKeys (Val.obj countReq.body)) = true ∧
    ((Val.obj countReq.body).getField "isCountOnly").truthy = true ∧
    findAllBlog collabOk countReq =
      ⟨[.countDocument (Val.obj [])],
        [successData (Val.obj [("totalRecords", Val.num 5)])]⟩ :=
  ⟨rfl, rfl, (C4_count_only collabOk countReq rfl rfl).1 (Val.num 5) rfl⟩

/-- C7: getBlog answers a validation error with no store call when the
path id is not a valid ObjectId; with a valid one it fetches exactly the
single document by `{_id: id}`, answering record-not-found when the store
yields nothing. -/
theorem C7_getBlog_id_guard (c : Collab) (req : Req) :
    (c.isValidObjectId req.paramsId = false →
      getBlog c req = ⟨[], [.validationError "invalid objectId."]⟩) ∧
    (c.isValidObjectId req.paramsId = true →
      ∀ found : Val, c.dbGetSingleDocument (idQuery req) (Val.obj []) = .ok found →
        (getBlog c req).ops = [.getSingleDocument (idQuery req) (Val.obj [])] ∧
        (found.truthy = false → (getBlog c req).rsps = [.recordNotFound]) ∧
        (found.truthy = true → (getBlog c req).rsps = [successData found])) := by
  constructor
  · intro h
    unfold getBlog runM getBlogM getBlogTry
    simp [tryCatch_def, bindM_def, pureM_def, retResp, h, Trace.empty]
  · intro h found hf
    refine ⟨?_, ?_, ?_⟩
    · rcases htf : found.truthy with _ | _ <;>
      · unfold getBlog runM getBlogM getBlogTry
        simp [tryCatch_def, bindM_def, pureM_def, retResp, call, h, hf, htf,
          Trace.empty, successData]
    · intro htf
      unfold getBlog runM getBlogM getBlogTry
      simp [tryCatch_def, bindM_def, pureM_def, retResp, call, h, hf, htf,
        Trace.empty]
    · intro htf
      unfold getBlog runM getBlogM getBlogTry
      simp [tryCatch_def, bindM_def, pureM_def, retResp, call, h, hf, htf,
        Trace.empty, successData]

/-- C6: for a valid non-count findAllBlog request, a store result that is
absent, carries no `data`, or carries an empty `data` list yields
record-not-found, and any other result is returned as-is in a success
response; the emptiness test agrees with that reading on absent results,
objects without `data`, and objects whose `data` is a list. -/
theorem C6_find_list (c : Collab) (req : Req)
    (hv : isValidRes (c.validateFindFilterKeys (Val.obj req.body)) = true)
    (hco : ((Val.obj req.body).getField "isCountOnly").truthy = false) :
    (∀ found : Val,
      c.dbGetAllDocuments (findAllQuery req) (findAllOptions req) = .ok found →
        (foundBlogsEmpty found = true → (findAllBlog c req).rsps = [.recordNotFound]) ∧
        (foundBlogsEmpty found = false → (findAllBlog c req).rsps = [successData found])) ∧
    foundBlogsEmpty Val.undefined = true ∧
    foundBlogsEmpty Val.null = true ∧
    (∀ fs : List (String × Val), lookupField fs "data" = none →
      foundBlogsEmpty (Val.obj fs) = true) ∧
    (∀ (fs : List (String × Val)) (xs : List Val),
      lookupField fs "data" = some (Val.arr xs) →
      foundBlogsEmpty (Val.obj fs) = xs.isEmpty) := by
  rcases hvv : c.validateFindFilterKeys (Val.obj req.body) with e | v
  · rw [hvv] at hv
    simp [isValidRes] at hv
  · rw [hvv] at hv
    simp only [isValidRes] at hv
    refine ⟨?_, by decide, by decide, ?_, ?_⟩
    · intro found hf
      constructor <;>
      · intro hemp
        unfold findAllBlog runM findAllBlogM findAllBlogTry
        simp [tryCatch_def, bindM_def, pureM_def, retResp, callV, call, hvv,
          hv, hco, hf, hemp, Trace.empty, successData]
    · intro fs h
      simp [foundBlogsEmpty, Val.getField, Val.truthy, h]
    · intro fs xs h
      cases xs with
      | nil => simp [foundBlogsEmpty, Val.getField, Val.truthy, h]
      | cons a as =>
        simp [foundBlogsEmpty, Val.getField, Val.truthy, h]
        omega

/-- C6 witness: a benign store answer with no `data` field is reported as
record-not-found. -/
theorem C6_find_list_witness :
    isValidRes (collabOk.validateFindFilterKeys (Val.obj listReq.body)) = true ∧
    ((Val.obj listReq.body).getField "isCountOnly").truthy = false ∧
    foundBlogsEmpty okDoc = true ∧
    (findAllBlog collabOk listReq).rsps = [.recordNotFound] :=
  ⟨rfl, rfl, rfl, ((C6_find_list collabOk listReq rfl rfl).1 okDoc rfl).1 rfl⟩

/-- C9: updateBlog guards nothing about the path id — whenever the update
body passes validation, the store update is invoked with query
`{_id: req.params.id}` whatever the id is (including `undefined`), and a
failing validation is the only way the store is not reached; by contrast
getBlog, deleteBlog and softDeleteBlog each stop at their id guard with no
store call. -/
theorem C9_updateBlog_no_id_guard (c : Collab) (req : Req) :
    (isValidRes (c.validateUpdateSchemaKeys (Val.obj (updateBlogData req))) = true →
      (updateBlog c req).ops =
        [.findOneAndUpdateDocument (idQuery req) (Val.obj (updateBlogData req))]) ∧
    (isValidRes (c.validateUpdateSchemaKeys (Val.obj (updateBlogData req))) = false →
      (updateBlog c req).ops = []) ∧
    (c.isValidObjectId req.paramsId = false →
      getBlog c req = ⟨[], [.validationError "invalid objectId."]⟩) ∧
    (req.paramsId.truthy = false → deleteBlog c req = ⟨[], [.badRequest]⟩) ∧
    (req.paramsId.truthy = false → softDeleteBlog c req = ⟨[], [.badRequest]⟩) := by
  refine ⟨?_, ?_, ?_, ?_, ?_⟩
  · intro hv
    rcases hvv : c.validateUpdateSchemaKeys (Val.obj (updateBlogData req)) with e | v
    · rw [hvv] at hv
      simp [isValidRes] at hv
    · rw [hvv] at hv
      simp only [isValidRes] at hv
      rcases hu : c.dbFindOneAndUpdateDocument (idQuery req)
          (Val.obj (updateBlogData req)) with e2 | u
      · unfold updateBlog runM updateBlogM updateBlogTry
        simp [tryCatch_def, bindM_def, pureM_def, retResp, callV, call, hvv,
          hv, hu, Trace.empty, catchDistinguish_eq]
      · rcases htu : u.truthy with _ | _ <;>
        · unfold updateBlog runM updateBlogM updateBlogTry
          simp [tryCatch_def, bindM_def, pureM_def, retResp, callV, call, hvv,
            hv, hu, htu, Trace.empty, successData]
  · intro hv
    rcases hvv : c.validateUpdateSchemaKeys (Val.obj (updateBlogData req)) with e | v
    · unfold updateBlog runM updateBlogM updateBlogTry
      simp [tryCatch_def, bindM_def, pureM_def, retResp, callV, hvv,
        Trace.empty, catchDistinguish_eq]
    · rw [hvv] at hv
      simp only [isValidRes] at hv
      unfold updateBlog runM updateBlogM updateBlogTry
      simp [tryCatch_def, bindM_def, pureM_def, retResp, callV, hvv, hv,
        Trace.empty]
  · intro h
    unfold getBlog runM getBlogM getBlogTry
    simp [tryCatch_def, bindM_def, pureM_def, retResp, h, Trace.empty]
  · intro h
    unfold deleteBlog runM deleteBlogM deleteBlogTry
    simp [tryCatch_def, bindM_def, pureM_def, retResp, h, Trace.empty]
  · intro h
    unfold softDeleteBlog runM softDeleteBlogM softDeleteBlogTry
    simp [tryCatch_def, bindM_def, pureM_def, retResp, h, Trace.empty]

/-- C9 witness: with a missing path id and a passing validation the update
is still sent to the store with `{_id: undefined}`. -/
theorem C9_updateBlog_no_id_guard_witness :
    isValidRes (collabOk.validateUpdateSchemaKeys
      (Val.obj (updateBlogData noIdReq))) = true ∧
    (updateBlog collabOk noIdReq).ops =
      [.findOneAndUpdateDocument (Val.obj [("_id", Val.undefined)])
        (Val.obj [("title", Val.str "x"), ("updatedBy", Val.str "u1")])] :=
  ⟨rfl, (C9_updateBlog_no_id_guard collabOk noIdReq).1 rfl⟩

/-- C1 counterexample: `updateBlog` forwards a client-supplied `addedBy`
to the store untouched — the update payload sent for `evilReq` still
carries `addedBy: "evil"`, so `addedBy` is not "removed from the update
payload on every update". -/
theorem C1_updateBlog_forwards_addedBy :
    (updateBlog collabOk evilReq).ops =
      [.findOneAndUpdateDocument (Val.obj [("_id", Val.str "b1")])
        (Val.obj [("addedBy", Val.str "evil"), ("updatedBy", Val.str "u1")])] ∧
    (Val.obj (updateBlogData evilReq)).getField "addedBy" = Val.str "evil" :=
  ⟨rfl, rfl⟩

/-- C1 as amended: `addedBy` is overwritten with the authenticated user id
on create (addBlog's constructor argument, every bulkInsertBlog item) and
stripped by partialUpdateBlog and bulkUpdateBlog, and `updatedBy` is set
from the user id by partialUpdateBlog and updateBlog always and by
bulkUpdateBlog whenever `req.body.data` is a non-null object; updateBlog,
however, does not strip a client-supplied `addedBy` (it forwards
`{...req.body, updatedBy}` as-is), and the create handlers do not touch a
client-supplied `updatedBy`. -/
theorem C1_ownership_fields (c : Collab) (req : Req) :
    (∀ v : Val, ExtCall.newBlog v ∈ (addBlog c req).ops → v = addBlogCtorArg req) ∧
    ((addBlogCtorArg req).getField "addedBy" = req.userId) ∧
    (∀ v : Val, ExtCall.bulkInsert v ∈ (bulkInsertBlog c req).ops →
      v = bulkInsertPayload req) ∧
    (∀ item ∈ bulkInsertItems req, item.getField "addedBy" = req.userId) ∧
    (∀ q d : Val, ExtCall.bulkUpdate q d ∈ (bulkUpdateBlog c req).ops →
      d = Val.obj (bulkUpdateBlogData req)) ∧
    (hasField (bulkUpdateBlogData req) "addedBy" = false) ∧
    (((Val.obj req.body).getField "data").isNonNullObject = true →
      (Val.obj (bulkUpdateBlogData req)).getField "updatedBy" = req.userId) ∧
    (∀ q d : Val,
      ExtCall.findOneAndUpdateDocument q d ∈ (partialUpdateBlog c req).ops →
      d = Val.obj (partialUpdateBlogData req)) ∧
    (hasField (partialUpdateBlogData req) "addedBy" = false) ∧
    ((Val.obj (partialUpdateBlogData req)).getField "updatedBy" = req.userId) ∧
    (∀ q d : Val, ExtCall.findOneAndUpdateDocument q d ∈ (updateBlog c req).ops →
      d = Val.obj (updateBlogData req)) ∧
    ((Val.obj (updateBlogData req)).getField "updatedBy" = req.userId) := by
  refine ⟨?_, ?_, ?_, ?_, ?_, ?_, ?_, ?_, ?_, ?_, ?_, ?_⟩
  · intro v hv
    exact opsOnly_run (addBlogM_ctorArg c req) _ hv v rfl
  · exact getField_setField_self _ _ _
  · intro v hv
    exact opsOnly_run (bulkInsertBlogM_payloadOnly c req) _ hv v rfl
  · intro item hitem
    unfold bulkInsertItems at hitem
    rcases List.mem_map.1 hitem with ⟨x, hx, rfl⟩
    exact getField_setField_self _ _ _
  · intro q d hd
    exact opsOnly_run (bulkUpdateBlogM_payloadOnly c req) _ hd q d rfl
  · unfold bulkUpdateBlogData
    split
    · rw [hasField_setField_ne _ _ (by decide)]
      exact hasField_eraseField_self _ _
    · exact hasField_eraseField_self _ _
  · intro h
    simp only [bulkUpdateBlogData, h, if_true]
    exact getField_setField_self _ _ _
  · intro q d hd
    exact opsOnly_run (partialUpdateBlogM_payloadOnly c req) _ hd q d rfl
  · unfold partialUpdateBlogData
    rw [hasField_setField_ne _ _ (by decide)]
    exact hasField_eraseField_self _ _
  · exact getField_setField_self _ _ _
  · intro q d hd
    exact opsOnly_run (updateBlogM_payloadOnly c req) _ hd q d rfl
  · exact getField_setField_self _ _ _

/-- C1 witness: for a request carrying both client ownership fields,
`partialUpdateBlog` at the benign store issues exactly one update, and its
payload — `{updatedBy: "u1"}` — is the stripped-and-stamped one. -/
theorem C1_ownership_fields_witness :
    (ExtCall.findOneAndUpdateDocument (Val.obj [("_id", Val.str "b1")])
        (Val.obj [("updatedBy", Val.str "u1")]) ∈
      (partialUpdateBlog collabOk ownReq).ops) ∧
    Val.obj [("updatedBy", Val.str "u1")] =
      Val.obj (partialUpdateBlogData ownReq) := by
  have hops : (partialUpdateBlog collabOk ownReq).ops =
      [.findOneAndUpdateDocument (Val.obj [("_id", Val.str "b1")])
        (Val.obj [("updatedBy", Val.str "u1")])] := rfl
  have hm : ExtCall.findOneAndUpdateDocument (Val.obj [("_id", Val.str "b1")])
      (Val.obj [("updatedBy", Val.str "u1")]) ∈
      (partialUpdateBlog collabOk ownReq).ops := by
    rw [hops]
    exact List.Mem.head _
  exact ⟨hm, (C1_ownership_fields collabOk ownReq).2.2.2.2.2.2.2.1 _ _ hm⟩

/-- C5: the soft-delete handlers only ever issue the one update whose
payload is exactly `{isDeleted: true, updatedBy: <user id>}` — never a
delete operation — and of all twelve handlers only deleteBlog and
deleteManyBlog can issue a delete operation; under the spec-modelled store
update, a soft delete removes no document and changes no field other than
`isDeleted` and `updatedBy`, setting `isDeleted` to `true`. -/
theorem C5_soft_delete_is_update (c : Collab) (req : Req) :
    (∀ op ∈ (softDeleteBlog c req).ops,
      op = .findOneAndUpdateDocument (idQuery req) (Val.obj (softDeleteBody req))) ∧
    (∀ op ∈ (softDeleteManyBlog c req).ops,
      op = .bulkUpdate (idsQuery req) (Val.obj (softDeleteBody req))) ∧
    (∀ op ∈ (softDeleteBlog c req).ops, op.isDeleteOp = false) ∧
    (∀ op ∈ (softDeleteManyBlog c req).ops, op.isDeleteOp = false) ∧
    (∀ op ∈ (addBlog c req).ops, op.isDeleteOp = false) ∧
    (∀ op ∈ (findAllBlog c req).ops, op.isDeleteOp = false) ∧
    (∀ op ∈ (getBlogCount c req).ops, op.isDeleteOp = false) ∧
    (∀ op ∈ (bulkInsertBlog c req).ops, op.isDeleteOp = false) ∧
    (∀ op ∈ (bulkUpdateBlog c req).ops, op.isDeleteOp = false) ∧
    (∀ op ∈ (partialUpdateBlog c req).ops, op.isDeleteOp = false) ∧
    (∀ op ∈ (updateBlog c req).ops, op.isDeleteOp = false) ∧
    (∀ op ∈ (getBlog c req).ops, op.isDeleteOp = false) ∧
    (∀ (matchesQ : List (String × Val) → Bool)
       (docs : List (List (String × Val))),
      (updateWhere matchesQ (softDeleteBody req) docs).length = docs.length) ∧
    (∀ (doc : List (String × Val)) (k : String),
      k ≠ "isDeleted" → k ≠ "updatedBy" →
      lookupField (applyUpdate (softDeleteBody req) doc) k = lookupField doc k) ∧
    (∀ doc : List (String × Val),
      lookupField (applyUpdate (softDeleteBody req) doc) "isDeleted" =
        some (Val.bool true)) := by
  refine ⟨?_, ?_, ?_, ?_, ?_, ?_, ?_, ?_, ?_, ?_, ?_, ?_, ?_, ?_, ?_⟩
  · exact opsOnly_run (softDeleteBlogM_updateOnly c req)
  · exact opsOnly_run (softDeleteManyBlogM_updateOnly c req)
  · intro op hop
    rw [opsOnly_run (softDeleteBlogM_updateOnly c req) op hop]
    rfl
  · intro op hop
    rw [opsOnly_run (softDeleteManyBlogM_updateOnly c req) op hop]
    rfl
  · exact opsOnly_run (addBlogM_noDelete c req)
  · exact opsOnly_run (findAllBlogM_noDelete c req)
  · exact opsOnly_run (getBlogCountM_noDelete c req)
  · exact opsOnly_run (bulkInsertBlogM_noDelete c req)
  · exact opsOnly_run (bulkUpdateBlogM_noDelete c req)
  · exact opsOnly_run (partialUpdateBlogM_noDelete c req)
  · exact opsOnly_run (updateBlogM_noDelete c req)
  · exact opsOnly_run (getBlogM_noDelete c req)
  · intro matchesQ docs
    unfold updateWhere
    exact List.length_map _ _
  · intro doc k h1 h2
    unfold applyUpdate softDeleteBody
    simp only [List.foldl]
    rw [lookupField_setField_ne _ _ h2, lookupField_setField_ne _ _ h1]
  · intro doc
    unfold applyUpdate softDeleteBody
    simp only [List.foldl]
    rw [lookupField_setField_ne _ _ (by decide), lookupField_setField_self]

/-- C5 witness: a soft-delete of one id issues exactly the flagging
update, and the modelled store update leaves a `title` field unchanged. -/
theorem C5_soft_delete_is_update_witness :
    (softDeleteBlog collabOk emptyBodyReq).ops =
      [.findOneAndUpdateDocument (Val.obj [("_id", Val.str "b1")])
        (Val.obj [("isDeleted", Val.bool true), ("updatedBy", Val.str "u1")])] ∧
    lookupField (applyUpdate (softDeleteBody emptyBodyReq)
        [("title", Val.str "t")]) "title" = some (Val.str "t") := by
  constructor
  · rfl
  · exact (C5_soft_delete_is_update collabOk emptyBodyReq).2.2.2.2.2.2.2.2.2.2.2.2.2.1
      [("title", Val.str "t")] "title" (by decide) (by decide)

/-- C10: no handler propagates an exception — whatever the request and
whatever the collaborators return or throw, each of the twelve handlers
swallows the error in its try/catch and terminates having issued at least
one response. -/
theorem C10_handlers_always_respond (c : Collab) (req : Req) :
    (noThrow (addBlogM c req) ∧ (addBlog c req).rsps ≠ []) ∧
    (noThrow (findAllBlogM c req) ∧ (findAllBlog c req).rsps ≠ []) ∧
    (noThrow (getBlogCountM c req) ∧ (getBlogCount c req).rsps ≠ []) ∧
    (noThrow (softDeleteManyBlogM c req) ∧ (softDeleteManyBlog c req).rsps ≠ []) ∧
    (noThrow (bulkInsertBlogM c req) ∧ (bulkInsertBlog c req).rsps ≠ []) ∧
    (noThrow (bulkUpdateBlogM c req) ∧ (bulkUpdateBlog c req).rsps ≠ []) ∧
    (noThrow (deleteManyBlogM c req) ∧ (deleteManyBlog c req).rsps ≠ []) ∧
    (noThrow (softDeleteBlogM c req) ∧ (softDeleteBlog c req).rsps ≠ []) ∧
    (noThrow (partialUpdateBlogM c req) ∧ (partialUpdateBlog c req).rsps ≠ []) ∧
    (noThrow (updateBlogM c req) ∧ (updateBlog c req).rsps ≠ []) ∧
    (noThrow (getBlogM c req) ∧ (getBlog c req).rsps ≠ []) ∧
    (noThrow (deleteBlogM c req) ∧ (deleteBlog c req).rsps ≠ []) := by
  refine ⟨⟨?_, ?_⟩, ⟨?_, ?_⟩, ⟨?_, ?_⟩, ⟨?_, ?_⟩, ⟨?_, ?_⟩, ⟨?_, ?_⟩,
    ⟨?_, ?_⟩, ⟨?_, ?_⟩, ⟨?_, ?_⟩, ⟨?_, ?_⟩, ⟨?_, ?_⟩, ⟨?_, ?_⟩⟩
  · exact noThrow_tryCatch catchDistinguish_noThrow
  · exact runM_rsps_ne_nil (addBlogTry_termOk c req) catchDistinguish_grows
  · exact noThrow_tryCatch catchGeneric_noThrow
  · exact runM_rsps_ne_nil (findAllBlogTry_termOk c req) catchGeneric_grows
  · exact noThrow_tryCatch catchGeneric_noThrow
  · exact runM_rsps_ne_nil (getBlogCountTry_termOk c req) catchGeneric_grows
  · exact noThrow_tryCatch catchGeneric_noThrow
  · exact runM_rsps_ne_nil (softDeleteManyBlogTry_termOk c req) catchGeneric_grows
  · exact noThrow_tryCatch catchDistinguish_noThrow
  · exact runM_rsps_ne_nil (bulkInsertBlogTry_termOk c req) catchDistinguish_grows
  · exact noThrow_tryCatch catchGeneric_noThrow
  · exact runM_rsps_ne_nil (bulkUpdateBlogTry_termOk c req) catchGeneric_grows
  · exact noThrow_tryCatch catchGeneric_noThrow
  · exact runM_rsps_ne_nil (deleteManyBlogTry_termOk c req) catchGeneric_grows
  · exact noThrow_tryCatch catchGeneric_noThrow
  · exact runM_rsps_ne_nil (softDeleteBlogTry_termOk c req) catchGeneric_grows
  · exact noThrow_tryCatch catchGeneric_noThrow
  · exact runM_rsps_ne_nil (partialUpdateBlogTry_termOk c req) catchGeneric_grows
  · exact noThrow_tryCatch catchDistinguish_noThrow
  · exact runM_rsps_ne_nil (updateBlogTry_termOk c req) catchDistinguish_grows
  · exact noThrow_tryCatch catchGeneric_noThrow
  · exact runM_rsps_ne_nil (getBlogTry_termOk c req) catchGeneric_grows
  · exact noThrow_tryCatch catchGeneric_noThrow
  · exact runM_rsps_ne_nil (deleteBlogTry_termOk c req) catchGeneric_grows

/-- C8: on a missing path id, partialUpdateBlog responds bad-request but
keeps going: it always ends up issuing exactly two responses, the first
being the bad-request one, and when the body passes validation the store
update is still invoked with query `{_id: undefined}`. -/
theorem C8_missing_id_double_response (c : Collab) (req : Req)
    (hid : req.paramsId = Val.undefined) :
    (partialUpdateBlog c req).rsps.length = 2 ∧
    (partialUpdateBlog c req).rsps.head? = some .badRequest ∧
    (isValidRes (c.validateUpdateSchemaKeys
        (Val.obj (partialUpdateBlogData req))) = true →
      (partialUpdateBlog c req).ops =
        [.findOneAndUpdateDocument (Val.obj [("_id", Val.undefined)])
          (Val.obj (partialUpdateBlogData req))]) := by
  obtain ⟨body, pid, uid⟩ := req
  simp only at hid
  subst hid
  have hpid : Val.truthy Val.undefined = false := rfl
  rcases hv : c.validateUpdateSchemaKeys
      (Val.obj (partialUpdateBlogData ⟨body, Val.undefined, uid⟩)) with e | v
  · refine ⟨?_, ?_, ?_⟩
    · unfold partialUpdateBlog runM partialUpdateBlogM partialUpdateBlogTry
      simp [tryCatch_def, bindM_def, pureM_def, retResp, emit, callV, hv,
        Trace.empty, catchGeneric, hpid]
    · unfold partialUpdateBlog runM partialUpdateBlogM partialUpdateBlogTry
      simp [tryCatch_def, bindM_def, pureM_def, retResp, emit, callV, hv,
        Trace.empty, catchGeneric, hpid]
    · intro hvr
      simp [isValidRes] at hvr
  · rcases v with ⟨iv, msg⟩
    cases iv with
    | false =>
      refine ⟨?_, ?_, ?_⟩
      · unfold partialUpdateBlog runM partialUpdateBlogM partialUpdateBlogTry
        simp [tryCatch_def, bindM_def, pureM_def, retResp, emit, callV, hv,
          Trace.empty, hpid]
      · unfold partialUpdateBlog runM partialUpdateBlogM partialUpdateBlogTry
        simp [tryCatch_def, bindM_def, pureM_def, retResp, emit, callV, hv,
          Trace.empty, hpid]
      · intro hvr
        simp [isValidRes] at hvr
    | true =>
      rcases hu : c.dbFindOneAndUpdateDocument
          (idQuery ⟨body, Val.undefined, uid⟩)
          (Val.obj (partialUpdateBlogData ⟨body, Val.undefined, uid⟩)) with e2 | u
      · refine ⟨?_, ?_, ?_⟩ <;>
          [skip; skip; intro hvr] <;>
        · unfold partialUpdateBlog runM partialUpdateBlogM partialUpdateBlogTry
          simp [tryCatch_def, bindM_def, pureM_def, retResp, emit, callV, call,
            hv, hu, Trace.empty, catchGeneric, hpid]
          all_goals simp [idQuery]
      · rcases htu : u.truthy with _ | _ <;>
        · refine ⟨?_, ?_, ?_⟩ <;>
            [skip; skip; intro hvr] <;>
          · unfold partialUpdateBlog runM partialUpdateBlogM partialUpdateBlogTry
            simp [tryCatch_def, bindM_def, pureM_def, retResp, emit, callV,
              call, hv, hu, htu, Trace.empty, hpid]
            all_goals simp [idQuery]

/-- C8 witness: a concrete missing-id request produces the two responses. -/
theorem C8_missing_id_double_response_witness :
    noIdReq.paramsId = Val.undefined ∧
    (partialUpdateBlog collabOk noIdReq).rsps.length = 2 ∧
    (partialUpdateBlog collabOk noIdReq).rsps.head? = some .badRequest :=
  ⟨rfl, (C8_missing_id_double_response collabOk noIdReq rfl).1,
    (C8_missing_id_double_response collabOk noIdReq rfl).2.1⟩

/-- C3 counterexample: a duplicate-key error (code 11000) thrown by the
store inside `bulkUpdateBlog` is NOT turned into a validation-error
response — the handler answers a generic internal server error, because
only addBlog, bulkInsertBlog and updateBlog have the distinguishing catch
block. -/
theorem C3_dup_key_not_distinguished :
    dupErr.isDup = true ∧
    (bulkUpdateBlog (collabThrow dupErr) bulkReq).rsps =
      [.internalServerError "E11000 duplicate key"] :=
  ⟨rfl, rfl⟩

/-- C3 as amended: addBlog, bulkInsertBlog and updateBlog translate a
thrown error through `errResponse` (ValidationError and duplicate-key
errors to validation-error responses, the rest to internal server errors);
the remaining nine handlers answer a generic internal server error
carrying the error's message for EVERY thrown error. -/
theorem C3_error_translation (c : Collab) (req : Req) (e : Err) :
    (∀ doc : Val, isValidRes (c.validateSchemaKeys (Val.obj req.body)) = true →
      c.newBlog (addBlogCtorArg req) = .ok doc →
      c.dbCreateDocument doc = .error e →
      (addBlog c req).rsps = [errResponse e]) ∧
    (dataBad ((Val.obj req.body).getField "data") = false →
      c.dbBulkInsert (bulkInsertPayload req) = .error e →
      (bulkInsertBlog c req).rsps = [errResponse e]) ∧
    (isValidRes (c.validateUpdateSchemaKeys (Val.obj (updateBlogData req))) = true →
      c.dbFindOneAndUpdateDocument (idQuery req) (Val.obj (updateBlogData req)) =
        .error e →
      (updateBlog c req).rsps = [errResponse e]) ∧
    (isValidRes (c.validateFindFilterKeys (Val.obj req.body)) = true →
      ((Val.obj req.body).getField "isCountOnly").truthy = true →
      c.dbCountDocument (findAllQuery req) = .error e →
      (findAllBlog c req).rsps = [.internalServerError e.message]) ∧
    (isValidRes (c.validateFindFilterKeys (Val.obj req.body)) = true →
      ((Val.obj req.body).getField "isCountOnly").truthy = false →
      c.dbGetAllDocuments (findAllQuery req) (findAllOptions req) = .error e →
      (findAllBlog c req).rsps = [.internalServerError e.message]) ∧
    (isValidRes (c.validateFindFilterKeysNoModel (Val.obj req.body)) = true →
      c.dbCountDocument (getBlogCountWhere req) = .error e →
      (getBlogCount c req).rsps = [.internalServerError e.message]) ∧
    (idsBad ((Val.obj req.body).getField "ids") = false →
      c.dbBulkUpdate (idsQuery req) (Val.obj (softDeleteBody req)) = .error e →
      (softDeleteManyBlog c req).rsps = [.internalServerError e.message]) ∧
    (c.dbBulkUpdate (bulkUpdateFilter req) (Val.obj (bulkUpdateBlogData req)) =
        .error e →
      (bulkUpdateBlog c req).rsps = [.internalServerError e.message]) ∧
    (idsBad ((Val.obj req.body).getField "ids") = false →
      c.dbDeleteMany (idsQuery req) = .error e →
      (deleteManyBlog c req).rsps = [.internalServerError e.message]) ∧
    (req.paramsId.truthy = true →
      c.dbFindOneAndUpdateDocument (idQuery req) (Val.obj (softDeleteBody req)) =
        .error e →
      (softDeleteBlog c req).rsps = [.internalServerError e.message]) ∧
    (req.paramsId.truthy = true →
      isValidRes (c.validateUpdateSchemaKeys
        (Val.obj (partialUpdateBlogData req))) = true →
      c.dbFindOneAndUpdateDocument (idQuery req)
        (Val.obj (partialUpdateBlogData req)) = .error e →
      (partialUpdateBlog c req).rsps = [.internalServerError e.message]) ∧
    (c.isValidObjectId req.paramsId = true →
      c.dbGetSingleDocument (idQuery req) (Val.obj []) = .error e →
      (getBlog c req).rsps = [.internalServerError e.message]) ∧
    (req.paramsId.truthy = true →
      c.dbFindOneAndDeleteDocument (idQuery req) = .error e →
      (deleteBlog c req).rsps = [.internalServerError e.message]) := by
  refine ⟨?_, ?_, ?_, ?_, ?_, ?_, ?_, ?_, ?_, ?_, ?_, ?_, ?_⟩
  · intro doc hv hn hc
    rcases hvv : c.validateSchemaKeys (Val.obj req.body) with e2 | v
    · rw [hvv] at hv
      simp [isValidRes] at hv
    · rw [hvv] at hv
      simp only [isValidRes] at hv
      unfold addBlog runM addBlogM addBlogTry
      simp [tryCatch_def, bindM_def, pureM_def, retResp, callV, call, hvv, hv,
        hn, hc, Trace.empty, catchDistinguish_eq]
  · intro hd hb
    unfold bulkInsertBlog runM bulkInsertBlogM bulkInsertBlogTry
    simp [tryCatch_def, bindM_def, pureM_def, retResp, callV, call, hd, hb,
      Trace.empty, catchDistinguish_eq]
  · intro hv hu
    rcases hvv : c.validateUpdateSchemaKeys (Val.obj (updateBlogData req)) with e2 | v
    · rw [hvv] at hv
      simp [isValidRes] at hv
    · rw [hvv] at hv
      simp only [isValidRes] at hv
      unfold updateBlog runM updateBlogM updateBlogTry
      simp [tryCatch_def, bindM_def, pureM_def, retResp, callV, call, hvv, hv,
        hu, Trace.empty, catchDistinguish_eq]
  · intro hv hco hc
    rcases hvv : c.validateFindFilterKeys (Val.obj req.body) with e2 | v
    · rw [hvv] at hv
      simp [isValidRes] at hv
    · rw [hvv] at hv
      simp only [isValidRes] at hv
      unfold findAllBlog runM findAllBlogM findAllBlogTry
      simp [tryCatch_def, bindM_def, pureM_def, retResp, callV, call, hvv, hv,
        hco, hc, Trace.empty, catchGeneric]
  · intro hv hco hg
    rcases hvv : c.validateFindFilterKeys (Val.obj req.body) with e2 | v
    · rw [hvv] at hv
      simp [isValidRes] at hv
    · rw [hvv] at hv
      simp only [isValidRes] at hv
      unfold findAllBlog runM findAllBlogM findAllBlogTry
      simp [tryCatch_def, bindM_def, pureM_def, retResp, callV, call, hvv, hv,
        hco, hg, Trace.empty, catchGeneric]
  · intro hv hc
    rcases hvv : c.validateFindFilterKeysNoModel (Val.obj req.body) with e2 | v
    · rw [hvv] at hv
      simp [isValidRes] at hv
    · rw [hvv] at hv
      simp only [isValidRes] at hv
      unfold getBlogCount runM getBlogCountM getBlogCountTry
      simp [tryCatch_def, bindM_def, pureM_def, retResp, callV, call, hvv, hv,
        hc, Trace.empty, catchGeneric]
  · intro hids hb
    unfold softDeleteManyBlog runM softDeleteManyBlogM softDeleteManyBlogTry
    simp [tryCatch_def, bindM_def, pureM_def, retResp, call, hids, hb,
      Trace.empty, catchGeneric]
  · intro hb
    unfold bulkUpdateBlog runM bulkUpdateBlogM bulkUpdateBlogTry
    simp [tryCatch_def, bindM_def, pureM_def, retResp, call, hb, Trace.empty,
      catchGeneric]
  · intro hids hb
    unfold deleteManyBlog runM deleteManyBlogM deleteManyBlogTry
    simp [tryCatch_def, bindM_def, pureM_def, retResp, call, hids, hb,
      Trace.empty, catchGeneric]
  · intro hp hb
    unfold softDeleteBlog runM softDeleteBlogM softDeleteBlogTry
    simp [tryCatch_def, bindM_def, pureM_def, retResp, call, hp, hb,
      Trace.empty, catchGeneric]
  · intro hp hv hb
    rcases hvv : c.validateUpdateSchemaKeys
        (Val.obj (partialUpdateBlogData req)) with e2 | v
    · rw [hvv] at hv
      simp [isValidRes] at hv
    · rw [hvv] at hv
      simp only [isValidRes] at hv
      unfold partialUpdateBlog runM partialUpdateBlogM partialUpdateBlogTry
      simp [tryCatch_def, bindM_def, pureM_def, retResp, emit, callV, call,
        hvv, hv, hp, hb, Trace.empty, catchGeneric]
  · intro hva hb
    unfold getBlog runM getBlogM getBlogTry
    simp [tryCatch_def, bindM_def, pureM_def, retResp, call, hva, hb,
      Trace.empty, catchGeneric]
  · intro hp hb
    unfold deleteBlog runM deleteBlogM deleteBlogTry
    simp [tryCatch_def, bindM_def, pureM_def, retResp, call, hp, hb,
      Trace.empty, catchGeneric]

/-- C3 witness: the same duplicate-key error IS distinguished when
`updateBlog` throws it: the response is the duplication validation
error. -/
theorem C3_error_translation_witness :
    errResponse dupErr = .validationError "Data duplication found." ∧
    (updateBlog (collabThrow dupErr) evilReq).rsps =
      [.validationError "Data duplication found."] := by
  constructor
  · rfl
  · have h := (C3_error_translation (collabThrow dupErr) evilReq dupErr).2.2.1
      rfl rfl
    simpa using h
